import Mathlib

/-!
Shallow embedding of the AdLib music player of this repository
(src/src/music/adlib.cpp).  The source file contains two revisions of the
same engine; definitions carry a `_v1` suffix for the first revision and
`_v2` for the second revision.  Definitions shared verbatim between the two
revisions carry no suffix.

Modelling conventions:
  * machine bytes and unsigned 16-bit counters are `Nat` with explicit
    reductions modulo 256 / 65536 where the C code can wrap;
  * `int16` quantities (`song_tempo`, `tempo_ticks`) are `Int` wrapped to
    the signed 16-bit range with `wrap16`; `int8` (pitchbend) uses `wrap8`;
  * `double sampletime` / `samples_step` are `Rat` (only ever added);
  * fallible operations (std::vector `.at` out of range, the wild
    out-of-bounds patch read reached through percussion-table entry 23,
    a segment index outside the segment list) return `none`;
  * debug-only `assert`s are no-ops, as in a release build;
  * the static 128-entry note tables are zero past their written
    initializers, which `List.getD _ _ 0` reproduces;
  * the song byte buffer is a `List Nat` of byte values, read with
    `List.getD _ _ 0`;
  * `field12` (only ever written) and the pcm bookkeeping fields not
    reachable from the claims (`lastsamplewritten`, `volume`) are omitted.
-/

namespace Adlib

/-- Reduce to an unsigned 16-bit value (uint16 wraparound). -/
def u16 (x : Nat) : Nat := x % 65536

/-- Reduce an integer to the signed 16-bit range, two's complement. -/
def wrap16 (x : Int) : Int := (x + 32768) % 65536 - 32768

/-- Reduce an integer to the signed 8-bit range, two's complement. -/
def wrap8 (x : Int) : Int := (x + 128) % 256 - 128

/-- Byte subtraction `a - b` modulo 256 (for byte-valued `a`, `b ≤ 256`). -/
def bsub (a b : Nat) : Nat := (a + 256 - b) % 256

/-- Playback status of the player (`AdlibPlayer::Status`). -/
inductive Status where
  | STOPPED
  | PLAYING
  | FINISHED
  | BEGIN_PLAY
deriving DecidableEq

/-- Playback status for a pseudo-MIDI track (`AdlibPlayer::TrackStatus`).
The first revision calls the last field `byte1547`; the second revision
names it `dualtrack`. -/
structure TrackStatus where
  program : Nat
  running_status : Nat
  volume : Nat
  pitchbend : Int
  delay : Nat
  playpos : Nat
  trackstart : Nat
  callreturn : Nat
  dualtrack : Nat
deriving DecidableEq

instance : Inhabited TrackStatus := ⟨⟨0, 0, 0, 0, 0, 0, 0, 0, 0⟩⟩

/-- Internal status of an OPL2 channel (`AdlibPlayer::ChannelStatus`). -/
structure ChannelStatus where
  cur_note : Nat
  owning_track : Nat
  cur_program : Nat
  cur_freqnum : Nat
  cur_bn_fh : Nat
  velocity : Nat
  contest : Nat
deriving DecidableEq

instance : Inhabited ChannelStatus := ⟨⟨0, 0, 0, 0, 0, 0, 0⟩⟩

/-- Definition of a "note" for the percussion channel
(`AdlibPlayer::PercussionNote`). -/
structure PercussionNote where
  b1 : Nat
  b2 : Nat
  b3 : Nat
deriving DecidableEq

instance : Inhabited PercussionNote := ⟨⟨0, 0, 0⟩⟩

/-- Definition of an instrument program (`AdlibPlayer::InstrumentDef`,
named `PatchDef` in the second revision); the 13 padding bytes are
omitted. -/
structure InstrumentDef where
  op1_tvsk_fmf : Nat
  op2_tvsk_fmf : Nat
  op1_ks_vol : Nat
  unk3 : Nat
  op1_atkdec : Nat
  op2_atkdec : Nat
  op1_susrel : Nat
  op2_susrel : Nat
  op1_wfs : Nat
  op2_wfs : Nat
  ch_syntype : Nat
deriving DecidableEq

instance : Inhabited InstrumentDef := ⟨⟨0, 0, 0, 0, 0, 0, 0, 0, 0, 0, 0⟩⟩

/-- A register write sent to the OPL emulator: (register, value). -/
abbrev RegWrite := Nat × Nat

/-- Full mutable state of `AdlibPlayer` reachable from the claims. -/
structure AdlibState where
  song_tempo : Int
  tempo_ticks : Int
  active_notes : Nat
  tracks : List TrackStatus
  channels : List ChannelStatus
  melpatches : List InstrumentDef
  segments : List Nat
  status : Status
  songdata : List Nat
  sampletime : Rat
  samples_step : Rat
deriving DecidableEq

/-- Replace the element at index `i` of a list via `f`, leaving the list
unchanged when `i` is out of range (in-place array update). -/
def updateAt (l : List α) (i : Nat) (f : α → α) : List α :=
  match l, i with
  | [], _ => []
  | x :: xs, 0 => f x :: xs
  | x :: xs, n + 1 => x :: updateAt xs n f

/-- Static table `AdlibPlayer::note_freqency` (108 written entries; the
declared size is 128 with zero padding, reproduced by `getD _ _ 0`). -/
def note_freqency : List Nat :=
  [0x00B5, 0x00C0, 0x00CC, 0x00D8, 0x00E5, 0x00F2, 0x0101, 0x0110,
   0x0120, 0x0131, 0x0143, 0x0157, 0x016B, 0x0181, 0x0198, 0x01B0,
   0x01CA, 0x01E5, 0x0202, 0x0220, 0x0241, 0x0263, 0x0287, 0x02AE,
   0x016B, 0x0181, 0x0198, 0x01B0, 0x01CA, 0x01E5, 0x0202, 0x0220,
   0x0241, 0x0263, 0x0287, 0x02AE, 0x016B, 0x0181, 0x0198, 0x01B0,
   0x01CA, 0x01E5, 0x0202, 0x0220, 0x0241, 0x0263, 0x0287, 0x02AE,
   0x016B, 0x0181, 0x0198, 0x01B0, 0x01CA, 0x01E5, 0x0202, 0x0220,
   0x0241, 0x0263, 0x0287, 0x02AE, 0x016B, 0x0181, 0x0198, 0x01B0,
   0x01CA, 0x01E5, 0x0202, 0x0220, 0x0241, 0x0263, 0x0287, 0x02AE,
   0x016B, 0x0181, 0x0198, 0x01B0, 0x01CA, 0x01E5, 0x0202, 0x0220,
   0x0241, 0x0263, 0x0287, 0x02AE, 0x016B, 0x0181, 0x0198, 0x01B0,
   0x01CA, 0x01E5, 0x0202, 0x0220, 0x0241, 0x0263, 0x0287, 0x02AE,
   0x016B, 0x0181, 0x0198, 0x01B0, 0x01CA, 0x01E5, 0x0202, 0x0220,
   0x0241, 0x0263, 0x0287, 0x02AE]

/-- Static table `AdlibPlayer::note_blocknum` (120 written entries,
zero padded to 128). -/
def note_blocknum : List Nat :=
  [0, 0, 0, 0, 0, 0, 0, 0,
   0, 0, 0, 0, 0, 0, 0, 0,
   0, 0, 0, 0, 0, 0, 0, 0,
   1, 1, 1, 1, 1, 1, 1, 1,
   1, 1, 1, 1, 2, 2, 2, 2,
   2, 2, 2, 2, 2, 2, 2, 2,
   3, 3, 3, 3, 3, 3, 3, 3,
   3, 3, 3, 3, 4, 4, 4, 4,
   4, 4, 4, 4, 4, 4, 4, 4,
   5, 5, 5, 5, 5, 5, 5, 5,
   5, 5, 5, 5, 6, 6, 6, 6,
   6, 6, 6, 6, 6, 6, 6, 6,
   7, 7, 7, 7, 7, 7, 7, 7,
   7, 7, 7, 7, 8, 8, 8, 8,
   8, 8, 8, 8, 8, 8, 8, 8]

/-- Static table `AdlibPlayer::pitchbend_scale` (108 written entries,
zero padded to 128). -/
def pitchbend_scale : List Nat :=
  [3, 3, 3, 3, 4, 4, 4, 4,
   4, 5, 5, 5, 3, 3, 3, 3,
   4, 4, 4, 4, 4, 5, 5, 5,
   3, 3, 3, 3, 4, 4, 4, 4,
   4, 5, 5, 5, 3, 3, 3, 3,
   4, 4, 4, 4, 4, 5, 5, 5,
   3, 3, 3, 3, 4, 4, 4, 4,
   4, 5, 5, 5, 3, 3, 3, 3,
   4, 4, 4, 4, 4, 5, 5, 5,
   3, 3, 3, 3, 4, 4, 4, 4,
   4, 5, 5, 5, 3, 3, 3, 3,
   4, 4, 4, 4, 4, 5, 5, 5,
   3, 3, 3, 3, 4, 4, 4, 4,
   4, 5, 5, 5]

/-- Static table `AdlibPlayer::perc_notes` (32 entries; entry 23 is the
`0xFF,0xFF,0xFF` sentinel). -/
def perc_notes : List PercussionNote :=
  [⟨0x03, 0x15, 0x64⟩, ⟨0x03, 0x17, 0x64⟩, ⟨0x05, 0x31, 0x64⟩,
   ⟨0x0A, 0x1C, 0x55⟩, ⟨0x06, 0x28, 0x4D⟩, ⟨0x09, 0x18, 0x55⟩,
   ⟨0x04, 0x1C, 0x64⟩, ⟨0x07, 0x52, 0x4D⟩, ⟨0x04, 0x1F, 0x64⟩,
   ⟨0x07, 0x52, 0x4D⟩, ⟨0x0C, 0x21, 0x64⟩, ⟨0x08, 0x52, 0x4D⟩,
   ⟨0x0C, 0x25, 0x64⟩, ⟨0x0C, 0x28, 0x64⟩, ⟨0x00, 0x3E, 0x64⟩,
   ⟨0x0C, 0x2C, 0x50⟩, ⟨0x01, 0x3E, 0x4D⟩, ⟨0x00, 0x3E, 0x64⟩,
   ⟨0x01, 0x3F, 0x4D⟩, ⟨0x02, 0x3E, 0x4D⟩, ⟨0x00, 0x41, 0x64⟩,
   ⟨0x0B, 0x0C, 0x4D⟩, ⟨0x00, 0x3E, 0x64⟩, ⟨0xFF, 0xFF, 0xFF⟩,
   ⟨0x01, 0x3F, 0x4D⟩, ⟨0x0D, 0x43, 0x55⟩, ⟨0x0D, 0x3D, 0x55⟩,
   ⟨0x0E, 0x3E, 0x64⟩, ⟨0x0F, 0x31, 0x64⟩, ⟨0x0F, 0x2C, 0x55⟩,
   ⟨0x10, 0x36, 0x4D⟩, ⟨0x10, 0x31, 0x4D⟩]

/-- Static table `AdlibPlayer::perc_instruments` (named `prcpatches` in the
second revision; 17 entries, identical data in both revisions). -/
def perc_instruments : List InstrumentDef :=
  [⟨0x0F, 0x42, 0x3F, 0x3F, 0xFA, 0xFA, 0x41, 0x44, 0x02, 0x03, 0x0F⟩,
   ⟨0x0F, 0x02, 0x3F, 0x3F, 0xFA, 0xFA, 0x51, 0x44, 0x02, 0x03, 0x0F⟩,
   ⟨0x0F, 0x04, 0x3F, 0x3F, 0xE7, 0xDC, 0x51, 0x46, 0x02, 0x00, 0x0F⟩,
   ⟨0x10, 0x00, 0x3E, 0x3F, 0xF8, 0xD5, 0xFF, 0xFF, 0x00, 0x00, 0x09⟩,
   ⟨0x10, 0x01, 0x32, 0x3F, 0xF8, 0xD5, 0x96, 0x86, 0x00, 0x00, 0x0D⟩,
   ⟨0x11, 0x10, 0x3F, 0x3F, 0x8F, 0xC8, 0xB4, 0x4A, 0x03, 0x00, 0x0D⟩,
   ⟨0x08, 0x0F, 0x3F, 0x3F, 0xF1, 0xF7, 0xFF, 0xFF, 0x00, 0x00, 0x0F⟩,
   ⟨0x0F, 0x02, 0x3F, 0x3F, 0xEA, 0xDA, 0x51, 0x46, 0x00, 0x03, 0x0F⟩,
   ⟨0x0F, 0x02, 0x3F, 0x3F, 0xEA, 0xDA, 0x51, 0x44, 0x00, 0x03, 0x0F⟩,
   ⟨0x02, 0x00, 0x3C, 0x3F, 0xF5, 0xF8, 0x15, 0x47, 0x00, 0x00, 0x0F⟩,
   ⟨0x02, 0x01, 0x39, 0x3F, 0xF5, 0xF8, 0x10, 0x46, 0x00, 0x00, 0x0F⟩,
   ⟨0x28, 0x2F, 0x3F, 0x3F, 0xFA, 0xF8, 0xF7, 0xF4, 0x00, 0x00, 0x0F⟩,
   ⟨0x10, 0x01, 0x32, 0x3F, 0xF8, 0xD5, 0x96, 0x86, 0x00, 0x00, 0x0F⟩,
   ⟨0x10, 0x00, 0x3F, 0x3F, 0xE9, 0xD7, 0xD4, 0xC5, 0x03, 0x00, 0x07⟩,
   ⟨0x10, 0x10, 0x32, 0x3F, 0xF8, 0xD7, 0x96, 0x86, 0x00, 0x00, 0x0F⟩,
   ⟨0x10, 0x10, 0x32, 0x3F, 0xF8, 0xD4, 0x96, 0x86, 0x00, 0x00, 0x0F⟩,
   ⟨0x00, 0x10, 0x32, 0x3F, 0xF8, 0xD4, 0x96, 0x86, 0x02, 0x00, 0x0F⟩]

/-- Static table `AdlibPlayer::channel_operators` (op1, op2 per channel). -/
def channel_operators : List (Nat × Nat) :=
  [(0x00, 0x03), (0x01, 0x04), (0x02, 0x05),
   (0x08, 0x0B), (0x09, 0x0C), (0x0A, 0x0D),
   (0x10, 0x13), (0x11, 0x14), (0x12, 0x15)]

/-- First loop of `SelectChannel` (identical in both revisions): increment
every channel's `contest` counter (uint16). -/
def bumpContest (chs : List ChannelStatus) : List ChannelStatus :=
  chs.map fun c => { c with contest := u16 (c.contest + 1) }

/-- Scan loop of the second revision's `SelectChannel`: walk the channels
forward carrying the running `(maxcontest, bestch)` pair; on the first free
channel break with that index, else end with the best-contest index. -/
def scanChannels : List ChannelStatus → Nat → Nat → Nat → Nat
  | [], _, _, best => best
  | c :: rest, i, maxc, best =>
    let maxc' := if maxc < c.contest then c.contest else maxc
    let best' := if maxc < c.contest then i else best
    if c.cur_note = 0 then i
    else scanChannels rest (i + 1) maxc' best'

/-- Scan loop of the first revision's `SelectChannel`; the extra Bool
records whether the loop exited through the free-channel branch (where the
first revision computes `needprogram` before returning). -/
def scanChannels_v1 : List ChannelStatus → Nat → Nat → Nat → Nat × Bool
  | [], _, _, best => (best, false)
  | c :: rest, i, maxc, best =>
    let maxc' := if maxc < c.contest then c.contest else maxc
    let best' := if maxc < c.contest then i else best
    if c.cur_note = 0 then (i, true)
    else scanChannels_v1 rest (i + 1) maxc' best'

/-- Second revision `AdlibPlayer::SelectChannel`: returns the selected
channel index, the `needprogram` flag, and the updated channel list. -/
def SelectChannel_v2 (chs : List ChannelStatus) (program : Nat) :
    Nat × Bool × List ChannelStatus :=
  let chs1 := bumpContest chs
  let bestch := min (scanChannels chs1 0 0 0) 8
  let needprogram : Bool := program ≠ (chs1.getD bestch default).cur_program
  (bestch, needprogram,
   updateAt chs1 bestch fun c => { c with cur_program := program, contest := 0 })

/-- First revision `AdlibPlayer::SelectChannel`: `needprogram` starts false
and is only assigned in the free-channel branch; the stolen-channel branch
leaves it false (the assignment is commented out, "not present in
original"). -/
def SelectChannel_v1 (chs : List ChannelStatus) (program : Nat) :
    Nat × Bool × List ChannelStatus :=
  let chs1 := bumpContest chs
  let r := scanChannels_v1 chs1 0 0 0
  if r.2 then
    let ch := r.1
    let needprogram : Bool := program ≠ (chs1.getD ch default).cur_program
    (ch, needprogram,
     updateAt chs1 ch fun c => { c with cur_program := program, contest := 0 })
  else
    let bestch := min r.1 8
    (bestch, false,
     updateAt chs1 bestch fun c => { c with cur_program := program, contest := 0 })

/-- `AdlibPlayer::IsAnyChannelFree` (identical in both revisions). -/
def IsAnyChannelFree : List ChannelStatus → Bool
  | [] => false
  | c :: rest => if c.cur_note = 0 then true else IsAnyChannelFree rest

/-- Index of the first free channel (specification-side helper used to
state which channel the forward scan selects). -/
def firstFreeIdx : List ChannelStatus → Nat
  | [] => 0
  | c :: rest => if c.cur_note = 0 then 0 else firstFreeIdx rest + 1

/-- `AdlibPlayer::CalcFrequency` (identical in both revisions): base
frequency from the note table, adjusted by the track's pitchbend scaled by
the pitchbend table, in int16 arithmetic, returned as uint16. -/
def CalcFrequency (s : AdlibState) (tracknum notenum : Nat) : Nat :=
  let track := s.tracks.getD tracknum default
  if track.pitchbend = 0 then note_freqency.getD notenum 0
  else if 0 < track.pitchbend then
    (wrap16 (wrap16 ((pitchbend_scale.getD notenum 0 : Int) * track.pitchbend)
       + (note_freqency.getD notenum 0 : Int)) % 65536).toNat
  else
    (wrap16 (wrap16 ((pitchbend_scale.getD (notenum - 1) 0 : Int) * (-track.pitchbend))
       + (note_freqency.getD notenum 0 : Int)) % 65536).toNat

/-- `AdlibPlayer::DoNoteOn` (identical in both revisions): writes the
frequency low byte, records the key-scale/block/F-number byte with the
key-on bit clear, and writes it with the key-on bit set. -/
def DoNoteOn (s : AdlibState) (ch blocknum freqnum : Nat) :
    AdlibState × List RegWrite :=
  let bnfh := (blocknum <<< 2) ||| (freqnum >>> 8)
  ({ s with channels := updateAt s.channels ch fun c => { c with cur_bn_fh := bnfh } },
   [(0xA0 + ch, freqnum &&& 0xFF), (0xB0 + ch, bnfh ||| 0x20)])

/-- Velocity-zero loop of `DoPlayNote` (identical in both revisions): every
channel whose `(cur_note, owning_track)` matches is freed and receives the
key-off write of its stored `cur_bn_fh`; `i` is the index of the head
channel. -/
def keyOffChannels (chs : List ChannelStatus) (i tracknum notenum : Nat) :
    List ChannelStatus × List RegWrite :=
  match chs with
  | [] => ([], [])
  | c :: rest =>
    let r := keyOffChannels rest (i + 1) tracknum notenum
    if c.cur_note = notenum ∧ c.owning_track = tracknum then
      ({ c with cur_note := 0 } :: r.1, (0xB0 + i, c.cur_bn_fh) :: r.2)
    else (c :: r.1, r.2)

/-- Body of the second revision's `DoPlayNote` after instrument resolution:
the velocity-zero key-off loop, or channel selection, channel-state update,
register writes and key-on.  `progkey` is the program value passed to
`SelectChannel` (melodic program, or percussion patch index + 0x80). -/
def DoPlayNoteCore_v2 (s : AdlibState) (tracknum velocity notenum : Nat)
    (instrument : InstrumentDef) (progkey : Nat) :
    AdlibState × List RegWrite :=
  if velocity = 0 then
    let r := keyOffChannels s.channels 0 tracknum notenum
    ({ s with channels := r.1 }, r.2)
  else
    let sel := SelectChannel_v2 s.channels progkey
    let ch := sel.1
    let needprogram := sel.2.1
    let chs1 := sel.2.2
    let oldbnfh := (chs1.getD ch default).cur_bn_fh
    let chs2 := updateAt chs1 ch fun c =>
      { c with velocity := velocity, cur_note := notenum, owning_track := tracknum }
    let op := channel_operators.getD ch default
    let w1 : List RegWrite :=
      if needprogram then
        [(0x20 + op.1, instrument.op1_tvsk_fmf),
         (0x20 + op.2, instrument.op2_tvsk_fmf),
         (0x40 + op.1, (instrument.op1_ks_vol &&& 0xC0) |||
            ((64 - instrument.op1_ks_vol % 64) % 64))]
      else []
    let w2 : List RegWrite :=
      [(0xB0 + ch, oldbnfh),
       (0x40 + op.2, (((velocity * 127) >>> 8) ^^^ 0xFF) &&& 0x3F)]
    let w3 : List RegWrite :=
      if needprogram then
        [(0x60 + op.1, instrument.op1_atkdec), (0x60 + op.2, instrument.op2_atkdec),
         (0x80 + op.1, instrument.op1_susrel), (0x80 + op.2, instrument.op2_susrel),
         (0xE0 + op.1, instrument.op1_wfs), (0xE0 + op.2, instrument.op2_wfs),
         (0xC0 + ch, instrument.ch_syntype ^^^ 1)]
      else []
    let freq := CalcFrequency s tracknum notenum
    let s1 := { s with channels := updateAt chs2 ch fun c => { c with cur_freqnum := freq } }
    let r := DoNoteOn s1 ch (note_blocknum.getD notenum 0) freq
    (r.1, w1 ++ w2 ++ w3 ++ r.2)

/-- Body of the first revision's `DoPlayNote` after instrument resolution.
Differences from the second revision: `SelectChannel_v1`, the carrier
attenuation write uses `velocity >> 1`, and `ch_syntype` is written without
the `^ 1` correction. -/
def DoPlayNoteCore_v1 (s : AdlibState) (tracknum velocity notenum : Nat)
    (instrument : InstrumentDef) (progkey : Nat) :
    AdlibState × List RegWrite :=
  if velocity = 0 then
    let r := keyOffChannels s.channels 0 tracknum notenum
    ({ s with channels := r.1 }, r.2)
  else
    let sel := SelectChannel_v1 s.channels progkey
    let ch := sel.1
    let needprogram := sel.2.1
    let chs1 := sel.2.2
    let oldbnfh := (chs1.getD ch default).cur_bn_fh
    let chs2 := updateAt chs1 ch fun c =>
      { c with velocity := velocity, cur_note := notenum, owning_track := tracknum }
    let op := channel_operators.getD ch default
    let w1 : List RegWrite :=
      if needprogram then
        [(0x20 + op.1, instrument.op1_tvsk_fmf),
         (0x20 + op.2, instrument.op2_tvsk_fmf),
         (0x40 + op.1, (instrument.op1_ks_vol &&& 0xC0) |||
            ((64 - instrument.op1_ks_vol % 64) % 64))]
      else []
    let w2 : List RegWrite :=
      [(0xB0 + ch, oldbnfh),
       (0x40 + op.2, ((velocity >>> 1) ^^^ 0xFF) &&& 0x3F)]
    let w3 : List RegWrite :=
      if needprogram then
        [(0x60 + op.1, instrument.op1_atkdec), (0x60 + op.2, instrument.op2_atkdec),
         (0x80 + op.1, instrument.op1_susrel), (0x80 + op.2, instrument.op2_susrel),
         (0xE0 + op.1, instrument.op1_wfs), (0xE0 + op.2, instrument.op2_wfs),
         (0xC0 + ch, instrument.ch_syntype)]
      else []
    let freq := CalcFrequency s tracknum notenum
    let s1 := { s with channels := updateAt chs2 ch fun c => { c with cur_freqnum := freq } }
    let r := DoNoteOn s1 ch (note_blocknum.getD notenum 0) freq
    (r.1, w1 ++ w2 ++ w3 ++ r.2)

/-- Second revision `AdlibPlayer::DoPlayNote`.  The note number is first
decremented (byte); a track whose program is 0xFF returns untouched; for
the percussion track the note is translated through `perc_notes` (with the
out-of-range early return); `none` models the out-of-range accesses that
abort (`melpatches.at` past the end, the patch read through the sentinel
entry 23 whose patch index 0xFF is outside `prcpatches`, also guarded by an
assertion in this revision). -/
def DoPlayNote_v2 (s : AdlibState) (tracknum velocity notenum0 : Nat) :
    Option (AdlibState × List RegWrite) :=
  let notenum1 := bsub notenum0 1
  let track := s.tracks.getD tracknum default
  if track.program = 0xFF then some (s, [])
  else if tracknum = 9 then
    let percnote := bsub notenum1 34
    if 30 < percnote then some (s, [])
    else
      let perc := perc_notes.getD percnote default
      match perc_instruments.get? perc.b1 with
      | none => none
      | some instrument =>
        some (DoPlayNoteCore_v2 s tracknum velocity (bsub perc.b2 1) instrument
          (perc.b1 + 0x80))
  else
    match s.melpatches.get? track.program with
    | none => none
    | some instrument =>
      some (DoPlayNoteCore_v2 s tracknum velocity notenum1 instrument track.program)

/-- First revision `AdlibPlayer::DoPlayNote`.  No program guard, no initial
note decrement; the percussion branch increments the note before the table
offset, so its translation differs from the second revision by one. -/
def DoPlayNote_v1 (s : AdlibState) (tracknum velocity notenum0 : Nat) :
    Option (AdlibState × List RegWrite) :=
  if tracknum = 9 then
    let n1 := (notenum0 + 1) % 256
    let percnote := bsub n1 35
    if 30 < percnote then some (s, [])
    else
      let perc := perc_notes.getD percnote default
      match perc_instruments.get? perc.b1 with
      | none => none
      | some instrument =>
        some (DoPlayNoteCore_v1 s tracknum velocity (bsub perc.b2 1) instrument
          (perc.b1 + 0x80))
  else
    let track := s.tracks.getD tracknum default
    match s.melpatches.get? track.program with
    | none => none
    | some instrument =>
      some (DoPlayNoteCore_v1 s tracknum velocity notenum0 instrument track.program)

/-- Channel loop of `AdlibPlayer::DoPitchbend` (identical in both
revisions): every sounding channel owned by the track has its frequency
recomputed in place and re-sent; `s1` already carries the updated
pitchbend. -/
def pitchChannels (s1 : AdlibState) (tracknum i : Nat) :
    List ChannelStatus → List ChannelStatus × List RegWrite
  | [] => ([], [])
  | c :: rest =>
    let r := pitchChannels s1 tracknum (i + 1) rest
    if c.cur_note = 0 ∨ c.owning_track ≠ tracknum then (c :: r.1, r.2)
    else
      let f := CalcFrequency s1 tracknum c.cur_note
      ({ c with cur_freqnum := f } :: r.1,
       (0xA0 + i, f &&& 0xFF) ::
       (0xB0 + i, 0x20 ||| (note_blocknum.getD c.cur_note 0 <<< 2) ||| (f >>> 8)) :: r.2)

/-- `AdlibPlayer::DoPitchbend` (identical in both revisions). -/
def DoPitchbend (s : AdlibState) (tracknum : Nat) (amount : Int) :
    AdlibState × List RegWrite :=
  let s1 := { s with tracks := updateAt s.tracks tracknum fun t => { t with pitchbend := amount } }
  let r := pitchChannels s1 tracknum 0 s1.channels
  ({ s1 with channels := r.1 }, r.2)

/-- `AdlibPlayer::ReadVariableLength`: 7 bits per byte, high bit continues,
uint16 accumulator; returns (value, next position).  The fuel bounds the
loop; `readVL` passes enough fuel for any read inside the buffer (beyond
the buffer `getD` yields 0, whose high bit is clear, ending the loop). -/
def ReadVariableLength (data : List Nat) : Nat → Nat → Nat → Nat × Nat
  | 0, pos, res => (res, pos)
  | fuel + 1, pos, res =>
    let b := data.getD pos 0
    let res' := u16 ((res <<< 7) + (b &&& 0x7F))
    if b &&& 0x80 ≠ 0 then ReadVariableLength data fuel (pos + 1) res'
    else (res', pos + 1)

/-- Read a variable-length value at `pos` in `data`. -/
def readVL (data : List Nat) (pos : Nat) : Nat × Nat :=
  ReadVariableLength data (data.length + 1) pos 0

/-- One iteration of the second revision's `PlayTrackStep` while loop,
after the `delay == 0` test: segment call/return, end marker, running
status, event dispatch, and the trailing delay read.  The result is
(state, register writes, returned-from-loop flag); `none` models the
failing accesses inside `DoPlayNote` and a segment index outside the
segment table (asserted here, out of range on the `segments` vector). -/
def trackBody_v2 (s : AdlibState) (tracknum : Nat) :
    Option (AdlibState × List RegWrite × Bool) :=
  let track := s.tracks.getD tracknum default
  let b1 := s.songdata.getD track.playpos 0
  let pos1 := track.playpos + 1
  if b1 = 0xFE then
    let b1' := s.songdata.getD pos1 0
    match s.segments.get? b1' with
    | none => none
    | some seg =>
      let d := readVL s.songdata seg
      some ({ s with tracks := updateAt s.tracks tracknum fun t =>
          { t with callreturn := pos1 + 1, playpos := d.2, delay := d.1 } }, [], false)
  else if b1 = 0xFD then
    let d := readVL s.songdata track.callreturn
    some ({ s with tracks := updateAt s.tracks tracknum fun t =>
        { t with playpos := d.2, callreturn := 0, delay := d.1 } }, [], false)
  else if b1 = 0xFF then
    some ({ s with
        status := Status.FINISHED,
        tracks := updateAt s.tracks tracknum fun t => { t with playpos := pos1 } }, [], true)
  else
    let rs := if 0x80 ≤ b1 then b1 else track.running_status
    let b1e := if 0x80 ≤ b1 then s.songdata.getD pos1 0 else b1
    let pos2 := if 0x80 ≤ b1 then pos1 + 1 else pos1
    let s0 := { s with tracks := updateAt s.tracks tracknum fun t =>
        { t with running_status := rs, playpos := pos2 } }
    let ev : Option (AdlibState × List RegWrite × Nat × Bool) :=
      if rs &&& 0xF0 = 0x80 then
        let sA := { s0 with active_notes :=
            if s0.active_notes ≠ 0 then s0.active_notes - 1 else s0.active_notes }
        (DoPlayNote_v2 sA tracknum 0 b1e).bind fun r1 =>
          if track.dualtrack ≠ 0 then
            (DoPlayNote_v2 r1.1 track.dualtrack 0 b1e).map fun r2 =>
              (r2.1, r1.2 ++ r2.2, pos2 + 1, false)
          else some (r1.1, r1.2, pos2 + 1, false)
      else if rs &&& 0xF0 = 0x90 then
        let b2 := s.songdata.getD pos2 0
        if b2 ≠ 0 then
          let vel := (b2 * track.volume / 128) % 256
          let step1 : Option (AdlibState × List RegWrite) :=
            if track.dualtrack ≠ 0 ∧ IsAnyChannelFree s0.channels then
              let sB := { s0 with tracks := updateAt s0.tracks track.dualtrack fun t =>
                  { t with program := track.program, pitchbend := track.pitchbend } }
              DoPlayNote_v2 sB track.dualtrack vel b1e
            else some (s0, [])
          step1.bind fun r1 =>
            (DoPlayNote_v2 r1.1 tracknum vel b1e).map fun r2 =>
              ({ r2.1 with active_notes := u16 (r2.1.active_notes + 1) },
               r1.2 ++ r2.2, pos2 + 1, false)
        else
          let sA := { s0 with active_notes :=
              if s0.active_notes ≠ 0 then s0.active_notes - 1 else s0.active_notes }
          let step1 : Option (AdlibState × List RegWrite) :=
            if track.dualtrack ≠ 0 then DoPlayNote_v2 sA track.dualtrack 0 b1e
            else some (sA, [])
          step1.bind fun r1 =>
            (DoPlayNote_v2 r1.1 tracknum 0 b1e).map fun r2 =>
              (r2.1, r1.2 ++ r2.2, pos2 + 1, false)
      else if rs &&& 0xF0 = 0xB0 then
        let b2 := s.songdata.getD pos2 0
        let s1 :=
          if b1e = 7 then
            { s0 with tracks := updateAt s0.tracks tracknum fun t =>
                { t with volume := if b2 ≠ 0 then (b2 + 1) % 256 else b2 } }
          else if b1e = 0 then
            if b2 ≠ 0 then { s0 with song_tempo := Int.ofNat (b2 * 48 / 60) } else s0
          else if b1e = 0x7E then
            { s0 with tracks := updateAt s0.tracks tracknum fun t =>
                { t with dualtrack := bsub b2 1 } }
          else if b1e = 0x7F then
            { s0 with tracks := updateAt s0.tracks tracknum fun t =>
                { t with dualtrack := 0 } }
          else s0
        some (s1, [], pos2 + 1, false)
      else if rs &&& 0xF0 = 0xC0 then
        if b1e = 0x7E then some ({ s0 with status := .FINISHED }, [], pos2, true)
        else some ({ s0 with tracks := updateAt s0.tracks tracknum fun t =>
            { t with program := b1e } }, [], pos2, false)
      else if rs &&& 0xF0 = 0xE0 then
        let pb := wrap8 ((b1e : Int) - 16)
        let r1 := DoPitchbend s0 tracknum pb
        if track.dualtrack ≠ 0 then
          let r2 := DoPitchbend r1.1 track.dualtrack pb
          some (r2.1, r1.2 ++ r2.2, pos2, false)
        else some (r1.1, r1.2, pos2, false)
      else some (s0, [], pos2, false)
    ev.map fun r =>
      if r.2.2.2 then (r.1, r.2.1, true)
      else
        let d := readVL s.songdata r.2.2.1
        ({ r.1 with tracks := updateAt r.1.tracks tracknum fun t =>
            { t with delay := d.1, playpos := d.2 } }, r.2.1, false)

/-- One iteration of the first revision's `PlayTrackStep` while loop.
Differences from the second revision: note-off (0x80) does not touch
`active_notes`; the note-on doubling condition is
`byte1547 != 0 || !IsAnyChannelFree()`; the velocity-zero branch of 0x90
plays the dual note-off unconditionally (also for `byte1547 == 0`); and
`DoPlayNote_v1` is used throughout. -/
def trackBody_v1 (s : AdlibState) (tracknum : Nat) :
    Option (AdlibState × List RegWrite × Bool) :=
  let track := s.tracks.getD tracknum default
  let b1 := s.songdata.getD track.playpos 0
  let pos1 := track.playpos + 1
  if b1 = 0xFE then
    let b1' := s.songdata.getD pos1 0
    match s.segments.get? b1' with
    | none => none
    | some seg =>
      let d := readVL s.songdata seg
      some ({ s with tracks := updateAt s.tracks tracknum fun t =>
          { t with callreturn := pos1 + 1, playpos := d.2, delay := d.1 } }, [], false)
  else if b1 = 0xFD then
    let d := readVL s.songdata track.callreturn
    some ({ s with tracks := updateAt s.tracks tracknum fun t =>
        { t with playpos := d.2, callreturn := 0, delay := d.1 } }, [], false)
  else if b1 = 0xFF then
    some ({ s with
        status := Status.FINISHED,
        tracks := updateAt s.tracks tracknum fun t => { t with playpos := pos1 } }, [], true)
  else
    let rs := if 0x80 ≤ b1 then b1 else track.running_status
    let b1e := if 0x80 ≤ b1 then s.songdata.getD pos1 0 else b1
    let pos2 := if 0x80 ≤ b1 then pos1 + 1 else pos1
    let s0 := { s with tracks := updateAt s.tracks tracknum fun t =>
        { t with running_status := rs, playpos := pos2 } }
    let ev : Option (AdlibState × List RegWrite × Nat × Bool) :=
      if rs &&& 0xF0 = 0x80 then
        (DoPlayNote_v1 s0 tracknum 0 b1e).bind fun r1 =>
          if track.dualtrack ≠ 0 then
            (DoPlayNote_v1 r1.1 track.dualtrack 0 b1e).map fun r2 =>
              (r2.1, r1.2 ++ r2.2, pos2 + 1, false)
          else some (r1.1, r1.2, pos2 + 1, false)
      else if rs &&& 0xF0 = 0x90 then
        let b2 := s.songdata.getD pos2 0
        if b2 ≠ 0 then
          let vel := (b2 * track.volume / 128) % 256
          let step1 : Option (AdlibState × List RegWrite) :=
            if track.dualtrack ≠ 0 ∨ IsAnyChannelFree s0.channels = false then
              let sB := { s0 with tracks := updateAt s0.tracks track.dualtrack fun t =>
                  { t with program := track.program, pitchbend := track.pitchbend } }
              DoPlayNote_v1 sB track.dualtrack vel b1e
            else some (s0, [])
          step1.bind fun r1 =>
            (DoPlayNote_v1 r1.1 tracknum vel b1e).map fun r2 =>
              ({ r2.1 with active_notes := u16 (r2.1.active_notes + 1) },
               r1.2 ++ r2.2, pos2 + 1, false)
        else
          let sA := { s0 with active_notes :=
              if s0.active_notes ≠ 0 then s0.active_notes - 1 else s0.active_notes }
          (DoPlayNote_v1 sA track.dualtrack 0 b1e).bind fun r1 =>
            (DoPlayNote_v1 r1.1 tracknum 0 b1e).map fun r2 =>
              (r2.1, r1.2 ++ r2.2, pos2 + 1, false)
      else if rs &&& 0xF0 = 0xB0 then
        let b2 := s.songdata.getD pos2 0
        let s1 :=
          if b1e = 7 then
            { s0 with tracks := updateAt s0.tracks tracknum fun t =>
                { t with volume := if b2 ≠ 0 then (b2 + 1) % 256 else b2 } }
          else if b1e = 0 then
            if b2 ≠ 0 then { s0 with song_tempo := Int.ofNat (b2 * 48 / 60) } else s0
          else if b1e = 0x7E then
            { s0 with tracks := updateAt s0.tracks tracknum fun t =>
                { t with dualtrack := bsub b2 1 } }
          else if b1e = 0x7F then
            { s0 with tracks := updateAt s0.tracks tracknum fun t =>
                { t with dualtrack := 0 } }
          else s0
        some (s1, [], pos2 + 1, false)
      else if rs &&& 0xF0 = 0xC0 then
        if b1e = 0x7E then some ({ s0 with status := .FINISHED }, [], pos2, true)
        else some ({ s0 with tracks := updateAt s0.tracks tracknum fun t =>
            { t with program := b1e } }, [], pos2, false)
      else if rs &&& 0xF0 = 0xE0 then
        let pb := wrap8 ((b1e : Int) - 16)
        let r1 := DoPitchbend s0 tracknum pb
        if track.dualtrack ≠ 0 then
          let r2 := DoPitchbend r1.1 track.dualtrack pb
          some (r2.1, r1.2 ++ r2.2, pos2, false)
        else some (r1.1, r1.2, pos2, false)
      else some (s0, [], pos2, false)
    ev.map fun r =>
      if r.2.2.2 then (r.1, r.2.1, true)
      else
        let d := readVL s.songdata r.2.2.1
        ({ r.1 with tracks := updateAt r.1.tracks tracknum fun t =>
            { t with delay := d.1, playpos := d.2 } }, r.2.1, false)

/-- Second revision `AdlibPlayer::PlayTrackStep`: run loop iterations while
the track's delay is zero and the loop has not returned.  The fuel bounds
the number of iterations. -/
def PlayTrackStep_v2 : Nat → AdlibState → Nat → Option (AdlibState × List RegWrite)
  | 0, _, _ => none
  | fuel + 1, s, tracknum =>
    if (s.tracks.getD tracknum default).delay ≠ 0 then some (s, [])
    else
      (trackBody_v2 s tracknum).bind fun r =>
        if r.2.2 then some (r.1, r.2.1)
        else (PlayTrackStep_v2 fuel r.1 tracknum).map fun r2 => (r2.1, r.2.1 ++ r2.2)

/-- First revision `AdlibPlayer::PlayTrackStep`. -/
def PlayTrackStep_v1 : Nat → AdlibState → Nat → Option (AdlibState × List RegWrite)
  | 0, _, _ => none
  | fuel + 1, s, tracknum =>
    if (s.tracks.getD tracknum default).delay ≠ 0 then some (s, [])
    else
      (trackBody_v1 s tracknum).bind fun r =>
        if r.2.2 then some (r.1, r.2.1)
        else (PlayTrackStep_v1 fuel r.1 tracknum).map fun r2 => (r2.1, r.2.1 ++ r2.2)

/-- Track visitation order of `PlayStep` (identical in both revisions):
tracks 0-8, then 10-15, with the percussion track 9 last. -/
def trackorder : List Nat := [0, 1, 2, 3, 4, 5, 6, 7, 8, 10, 11, 12, 13, 14, 15, 9]

/-- Per-track body of the second revision's `PlayStep` loop: skip unstarted
tracks (`playpos == 0`); run `PlayTrackStep` when the delay is zero; then
decrement the delay unconditionally (uint16). -/
def stepTrack_v2 (fuel : Nat) (acc : AdlibState × List RegWrite) (tr : Nat) :
    Option (AdlibState × List RegWrite) :=
  let trst := acc.1.tracks.getD tr default
  if trst.playpos = 0 then some acc
  else
    let step : Option (AdlibState × List RegWrite) :=
      if trst.delay = 0 then PlayTrackStep_v2 fuel acc.1 tr else some (acc.1, [])
    step.map fun r =>
      ({ r.1 with tracks := updateAt r.1.tracks tr fun t =>
          { t with delay := if t.delay = 0 then 65535 else t.delay - 1 } },
       acc.2 ++ r.2)

/-- Per-track body of the first revision's `PlayStep` loop: the delay is
only decremented when no `PlayTrackStep` ran. -/
def stepTrack_v1 (fuel : Nat) (acc : AdlibState × List RegWrite) (tr : Nat) :
    Option (AdlibState × List RegWrite) :=
  let trst := acc.1.tracks.getD tr default
  if trst.playpos = 0 then some acc
  else if trst.delay = 0 then
    (PlayTrackStep_v1 fuel acc.1 tr).map fun r => (r.1, acc.2 ++ r.2)
  else
    some ({ acc.1 with tracks := updateAt acc.1.tracks tr fun t =>
        { t with delay := t.delay - 1 } }, acc.2)

/-- One round of track interpretation over `trackorder` (second
revision). -/
def doTracks_v2 (fuel : Nat) (s : AdlibState) : Option (AdlibState × List RegWrite) :=
  trackorder.foldlM (stepTrack_v2 fuel) (s, [])

/-- One round of track interpretation over `trackorder` (first
revision). -/
def doTracks_v1 (fuel : Nat) (s : AdlibState) : Option (AdlibState × List RegWrite) :=
  trackorder.foldlM (stepTrack_v1 fuel) (s, [])

/-- Channel-clearing loop at the end of the first revision's `PlayStep`
(present but behind `if (false)` in the second revision). -/
def clearChannels (chs : List ChannelStatus) : List ChannelStatus :=
  chs.map fun c => { c with cur_program := 0xFF, cur_note := 0 }

/-- Second revision `AdlibPlayer::PlayStep`: in PLAYING state advance
`sampletime`, count the tempo countdown down by `song_tempo` (int16); when
it stays positive return immediately, otherwise replenish it by 0x94 and
run one round of track interpretation; the channel-clearing block is behind
a constant-false guard.  The Bool mirrors the C return value. -/
def PlayStep_v2 (fuel : Nat) (s : AdlibState) :
    Option ((AdlibState × List RegWrite) × Bool) :=
  if s.status ≠ .PLAYING then some ((s, []), false)
  else
    let s1 := { s with sampletime := s.sampletime + s.samples_step,
                       tempo_ticks := wrap16 (s.tempo_ticks - s.song_tempo) }
    if 0 < s1.tempo_ticks then some ((s1, []), true)
    else
      let s2 := { s1 with tempo_ticks := wrap16 (s1.tempo_ticks + 0x94) }
      (doTracks_v2 fuel s2).map fun r =>
        ((if (false : Bool) = true then { r.1 with channels := clearChannels r.1.channels }
          else r.1, r.2), true)

/-- First revision `AdlibPlayer::PlayStep`: as the second revision, but the
per-track delay handling differs (`stepTrack_v1`) and every expired call
ends by clearing all channels unconditionally. -/
def PlayStep_v1 (fuel : Nat) (s : AdlibState) :
    Option ((AdlibState × List RegWrite) × Bool) :=
  if s.status ≠ .PLAYING then some ((s, []), false)
  else
    let s1 := { s with sampletime := s.sampletime + s.samples_step,
                       tempo_ticks := wrap16 (s.tempo_ticks - s.song_tempo) }
    if 0 < s1.tempo_ticks then some ((s1, []), true)
    else
      let s2 := { s1 with tempo_ticks := wrap16 (s1.tempo_ticks + 0x94) }
      (doTracks_v1 fuel s2).map fun r =>
        (({ r.1 with channels := clearChannels r.1.channels }, r.2), true)

/-- Little-endian 16-bit read from the song buffer. -/
def readLE16 (data : List Nat) (pos : Nat) : Nat :=
  data.getD pos 0 + 256 * data.getD (pos + 1) 0

/-- Read one 24-byte instrument record at `pos` (11 meaningful bytes). -/
def parsePatch (data : List Nat) (pos : Nat) : InstrumentDef :=
  ⟨data.getD pos 0, data.getD (pos + 1) 0, data.getD (pos + 2) 0,
   data.getD (pos + 3) 0, data.getD (pos + 4) 0, data.getD (pos + 5) 0,
   data.getD (pos + 6) 0, data.getD (pos + 7) 0, data.getD (pos + 8) 0,
   data.getD (pos + 9) 0, data.getD (pos + 10) 0⟩

/-- Patch-loading loop of `LoadSong` (identical in both revisions):
`n` 24-byte records starting at `pos`; returns the list and the position
after the records. -/
def parsePatches (data : List Nat) : Nat → Nat → List InstrumentDef × Nat
  | pos, 0 => ([], pos)
  | pos, n + 1 =>
    let p := parsePatch data pos
    let r := parsePatches data (pos + 24) n
    (p :: r.1, r.2)

/-- Segment-loading loop of `LoadSong` (identical in both revisions): each
segment contributes its header offset + 4; the position advances by the
little-endian length field. -/
def parseSegments (data : List Nat) : Nat → Nat → List Nat × Nat
  | pos, 0 => ([], pos)
  | pos, n + 1 =>
    let r := parseSegments data (pos + readLE16 data pos) n
    ((pos + 4) :: r.1, r.2)

/-- Track-loading loop of `LoadSong` (identical in both revisions): the
byte at offset + 4 selects the destination track, whose `trackstart` is set
to offset + 5. -/
def parseTrackDefs (data : List Nat) : Nat → Nat → List TrackStatus → List TrackStatus
  | _, 0, tracks => tracks
  | pos, n + 1, tracks =>
    let tr := data.getD (pos + 4) 0
    parseTrackDefs data (pos + readLE16 data pos) n
      (updateAt tracks tr fun t => { t with trackstart := pos + 5 })

/-- `AdlibPlayer::UnloadSong` (identical in both revisions apart from the
mutex): free the song data, clear the segments, reset `active_notes`, reset
the device (register writes not modelled here) and stop. -/
def UnloadSong (s : AdlibState) : AdlibState :=
  { s with songdata := [], segments := [], active_notes := 0, status := .STOPPED }

/-- Second revision `AdlibPlayer::LoadSong`: unload, full track and channel
reset (the running status is not reset), then parse tempo (`raw * 24 / 60`),
melodic patches, segments and track starts, and arm BEGIN_PLAY. -/
def LoadSong_v2 (s : AdlibState) (data : List Nat) : AdlibState :=
  let s := UnloadSong s
  let s : AdlibState := { s with
      sampletime := 0, songdata := data,
      tracks := s.tracks.map fun t =>
        { t with
          program := 0xFF, volume := 127, pitchbend := 0, delay := 0,
          playpos := 0, trackstart := 0, callreturn := 0, dualtrack := 0 },
      channels := s.channels.map fun _ =>
        { cur_note := 0, owning_track := 0, cur_program := 0xFF, cur_freqnum := 0,
          cur_bn_fh := 0, velocity := 0, contest := 0 } }
  let tempo : Int := Int.ofNat (data.getD 0 0 * 24 / 60)
  let numpatches := data.getD 1 0
  let rp := parsePatches data 2 numpatches
  let numsegments := data.getD rp.2 0
  let rs := parseSegments data (rp.2 + 1) numsegments
  let numtracks := data.getD rs.2 0
  let tracks1 := parseTrackDefs data (rs.2 + 1) numtracks s.tracks
  { s with song_tempo := tempo, melpatches := rp.1, segments := rs.1,
           tracks := tracks1, status := .BEGIN_PLAY }

/-- First revision `AdlibPlayer::LoadSong`: only `trackstart` is reset on
the tracks, the channels are untouched, and the tempo is the raw first byte
(no `* 24 / 60` conversion). -/
def LoadSong_v1 (s : AdlibState) (data : List Nat) : AdlibState :=
  let s := UnloadSong s
  let s : AdlibState := { s with
      sampletime := 0, songdata := data,
      tracks := s.tracks.map fun t => { t with trackstart := 0 } }
  let tempo : Int := Int.ofNat (data.getD 0 0)
  let numpatches := data.getD 1 0
  let rp := parsePatches data 2 numpatches
  let numsegments := data.getD rp.2 0
  let rs := parseSegments data (rp.2 + 1) numsegments
  let numtracks := data.getD rs.2 0
  let tracks1 := parseTrackDefs data (rs.2 + 1) numtracks s.tracks
  { s with song_tempo := tempo, melpatches := rp.1, segments := rs.1,
           tracks := tracks1, status := .BEGIN_PLAY }

/-- Per-track reset of `RestartSong` (identical in both revisions):
pitchbend and dual-track cleared; started tracks re-read their initial
delay from `trackstart`. -/
def restartTrack (data : List Nat) (t : TrackStatus) : TrackStatus :=
  let t : TrackStatus := { t with pitchbend := 0, dualtrack := 0 }
  if t.trackstart ≠ 0 then
    let d := readVL data t.trackstart
    { t with playpos := d.2, delay := d.1 }
  else { t with playpos := 0, delay := 0 }

/-- Second revision `AdlibPlayer::RestartSong`: also resets `tempo_ticks`
to 60 and rereads the tempo from the song's first byte (`raw * 24 / 60`). -/
def RestartSong_v2 (s : AdlibState) : AdlibState :=
  { s with sampletime := 0, tracks := s.tracks.map (restartTrack s.songdata),
           tempo_ticks := 60,
           song_tempo := Int.ofNat (s.songdata.getD 0 0 * 24 / 60),
           status := .PLAYING }

/-- First revision `AdlibPlayer::RestartSong`: no tempo or countdown
reset. -/
def RestartSong_v1 (s : AdlibState) : AdlibState :=
  { s with sampletime := 0, tracks := s.tracks.map (restartTrack s.songdata),
           status := .PLAYING }

/-! Concrete states used by witnesses and counterexamples. -/

/-- An occupied channel holding note `n`, owned by track `o`, loaded with
program `p`, with contest counter `ct`. -/
def occCh (n o p ct : Nat) : ChannelStatus :=
  { cur_note := n, owning_track := o, cur_program := p, cur_freqnum := 0,
    cur_bn_fh := 0x11, velocity := 0, contest := ct }

/-- A player state with zeroed scalar fields, 16 default tracks, the given
channels, one all-zero melodic patch, and PLAYING status. -/
def mkState (chs : List ChannelStatus) : AdlibState :=
  { song_tempo := 0, tempo_ticks := 0, active_notes := 0,
    tracks := List.replicate 16 default, channels := chs,
    melpatches := [default], segments := [], status := .PLAYING,
    songdata := [], sampletime := 0, samples_step := 0 }

/-- Nine channels, channel 2 free, channel 3 holding the strictly largest
contest. -/
def chsW1 : List ChannelStatus :=
  [occCh 1 0 5 0, occCh 1 0 5 0, occCh 0 0 5 0, occCh 1 0 5 7, occCh 1 0 5 0,
   occCh 1 0 5 0, occCh 1 0 5 0, occCh 1 0 5 0, occCh 1 0 5 0]

/-- Nine occupied channels, channel 3 holding the strictly largest contest,
every channel loaded with program 5. -/
def chsOcc : List ChannelStatus :=
  [occCh 1 0 5 0, occCh 1 0 5 0, occCh 1 0 5 0, occCh 1 0 5 7, occCh 1 0 5 0,
   occCh 1 0 5 0, occCh 1 0 5 0, occCh 1 0 5 0, occCh 1 0 5 0]

/-- Number of channels among the nine that transition from free
(`cur_note = 0`) to occupied (`cur_note ≠ 0`) between two channel lists. -/
def freeToOcc (pre post : List ChannelStatus) : Nat :=
  ((List.range 9).filter fun k =>
    decide ((pre.getD k default).cur_note = 0) &&
    decide ((post.getD k default).cur_note ≠ 0)).length

/-- Channel list after a `DoPlayNote_v2` call (the pre-state channels when
the call fails). -/
def dpnChannels_v2 (s : AdlibState) (tracknum velocity notenum : Nat) :
    List ChannelStatus :=
  ((DoPlayNote_v2 s tracknum velocity notenum).map fun r => r.1.channels).getD
    s.channels

/-- State for the C9 counterpart in the first revision: track 9 (where the
program field is never consulted by the first revision) has program 0xFF,
channel 0 holds translated percussion note 81 owned by track 9. -/
def c9state : AdlibState :=
  { mkState (occCh 81 9 5 0 :: List.replicate 8 (occCh 1 0 5 0)) with
    tracks := updateAt (List.replicate 16 (default : TrackStatus)) 9
      fun t => { t with program := 0xFF } }

/-- State for the C9 witness: melodic track 2 with program 0xFF. -/
def c9wstate : AdlibState :=
  { mkState (List.replicate 9 (occCh 1 0 5 0)) with
    tracks := updateAt (List.replicate 16 (default : TrackStatus)) 2
      fun t => { t with program := 0xFF } }

/-- State for the C7 counterexample: melodic track 2 with uninitialized
program (0xFF), channel 4 sounding translated note 39 owned by track 2. -/
def c7state : AdlibState :=
  { mkState (updateAt (List.replicate 9 (occCh 1 0 5 0)) 4
      fun c => { c with cur_note := 39, owning_track := 2 }) with
    tracks := updateAt (List.replicate 16 (default : TrackStatus)) 2
      fun t => { t with program := 0xFF } }

/-- State for the C7 witness: like `c7state` but track 2 has the valid
program 0. -/
def c7wstate : AdlibState :=
  { mkState (updateAt (List.replicate 9 (occCh 1 0 5 0)) 4
      fun c => { c with cur_note := 39, owning_track := 2 }) with
    tracks := updateAt (List.replicate 16 (default : TrackStatus)) 2
      fun t => { t with program := 0 } }

/-- State for the C6 counterexample: all nine channels occupied, melodic
track 2 with valid program 0. -/
def c6state : AdlibState :=
  { mkState (List.replicate 9 (occCh 5 0 5 0)) with
    tracks := updateAt (List.replicate 16 (default : TrackStatus)) 2
      fun t => { t with program := 0 } }

/-- State for the C6 witness: channel 2 free, melodic track 2 with valid
program 0. -/
def c6wstate : AdlibState :=
  { mkState chsW1 with
    tracks := updateAt (List.replicate 16 (default : TrackStatus)) 2
      fun t => { t with program := 0 } }

/-- State whose track 0 is positioned at a controller-0 event with value
100 and whose song starts with tempo byte 60. -/
def c4wstate : AdlibState :=
  { mkState (List.replicate 9 default) with songdata := [0xB0, 0x00, 100, 0x01] }

/-- State whose track 0 is positioned at a controller-7 event with value
255. -/
def c8state : AdlibState :=
  { mkState (List.replicate 9 default) with songdata := [0xB0, 0x07, 0xFF, 0x01] }

/-- State whose track 0 is positioned at a controller-7 event with value
1. -/
def c8w1state : AdlibState :=
  { mkState (List.replicate 9 default) with songdata := [0xB0, 0x07, 0x01, 0x01] }

/-- State whose track 0 is positioned at a controller-7 event with value
0. -/
def c8w0state : AdlibState :=
  { mkState (List.replicate 9 default) with songdata := [0xB0, 0x07, 0x00, 0x01] }

/-- Player state after a `PlayStep_v1` call (the pre-state when the call
fails). -/
def psState_v1 (fuel : Nat) (s : AdlibState) : AdlibState :=
  ((PlayStep_v1 fuel s).map fun r => r.1.1).getD s

/-- Player state after a `PlayStep_v2` call (the pre-state when the call
fails). -/
def psState_v2 (fuel : Nat) (s : AdlibState) : AdlibState :=
  ((PlayStep_v2 fuel s).map fun r => r.1.1).getD s

/-- A playing state whose countdown does not expire on the next step. -/
def c5nstate : AdlibState :=
  { mkState (List.replicate 9 default) with
    song_tempo := 10, tempo_ticks := 50, samples_step := 7 }

/-- A playing state whose countdown expires on the next step; no track is
started, and channel 0 is occupied. -/
def c5estate : AdlibState :=
  { mkState (occCh 5 1 3 0 :: List.replicate 8 default) with
    song_tempo := 10, tempo_ticks := 5, samples_step := 7 }

/-- Player state after one `trackBody_v2` iteration (the pre-state when
the iteration fails). -/
def tbState_v2 (s : AdlibState) (tracknum : Nat) : AdlibState :=
  ((trackBody_v2 s tracknum).map fun r => r.1).getD s

/-- State for the C3 counterexample: track 7 (program 0, volume 127, dual
track 3) positioned at a note-on event (status 0x97, note 0x40, velocity
0x50) with all nine channels occupied by track 1. -/
def c3state : AdlibState :=
  { mkState (List.replicate 9 (occCh 5 1 5 0)) with
    songdata := [0x97, 0x40, 0x50, 0x01],
    tracks := updateAt (List.replicate 16 (default : TrackStatus)) 7
      fun t => { t with program := 0, volume := 127, dualtrack := 3 } }

/-- State for the C3 witness: as `c3state` but channel 0 free. -/
def c3wstate : AdlibState :=
  { c3state with
    channels := updateAt c3state.channels 0 fun c => { c with cur_note := 0 } }

/-! Supporting lemmas. -/

theorem length_updateAt (l : List α) (i : Nat) (f : α → α) :
    (updateAt l i f).length = l.length := by
  induction l generalizing i with
  | nil => rfl
  | cons x xs ih =>
    cases i with
    | zero => rfl
    | succ n => simp [updateAt, ih]

theorem getD_updateAt_self (l : List α) (i : Nat) (f : α → α) (d : α)
    (h : i < l.length) :
    (updateAt l i f).getD i d = f (l.getD i d) := by
  induction l generalizing i with
  | nil => exact absurd h (Nat.not_lt_zero i)
  | cons x xs ih =>
    cases i with
    | zero => rfl
    | succ n => simpa [updateAt] using ih n (by simpa using h)

theorem getD_updateAt_ne (l : List α) (i j : Nat) (f : α → α) (d : α)
    (h : j ≠ i) :
    (updateAt l i f).getD j d = l.getD j d := by
  induction l generalizing i j with
  | nil => rfl
  | cons x xs ih =>
    cases i with
    | zero =>
      cases j with
      | zero => exact absurd rfl h
      | succ m => rfl
    | succ n =>
      cases j with
      | zero => rfl
      | succ m => simpa [updateAt] using ih n m (fun hh => h (by rw [hh]))

theorem length_bumpContest (chs : List ChannelStatus) :
    (bumpContest chs).length = chs.length := by
  simp [bumpContest]

theorem getD_bumpContest (chs : List ChannelStatus) (k : Nat) (h : k < chs.length) :
    (bumpContest chs).getD k default =
      { chs.getD k default with contest := u16 ((chs.getD k default).contest + 1) } := by
  induction chs generalizing k with
  | nil => exact absurd h (Nat.not_lt_zero k)
  | cons c rest ih =>
    cases k with
    | zero => rfl
    | succ m => simpa [bumpContest] using ih m (by simpa using h)

theorem isFree_bumpContest (chs : List ChannelStatus) :
    IsAnyChannelFree (bumpContest chs) = IsAnyChannelFree chs := by
  induction chs with
  | nil => rfl
  | cons c rest ih =>
    by_cases hc : c.cur_note = 0 <;> simp [bumpContest, IsAnyChannelFree, hc] at ih ⊢ <;>
      simpa [bumpContest] using ih

theorem firstFreeIdx_bumpContest (chs : List ChannelStatus) :
    firstFreeIdx (bumpContest chs) = firstFreeIdx chs := by
  induction chs with
  | nil => rfl
  | cons c rest ih =>
    by_cases hc : c.cur_note = 0 <;> simp [bumpContest, firstFreeIdx, hc] at ih ⊢ <;>
      simpa [bumpContest] using ih

theorem firstFreeIdx_lt (chs : List ChannelStatus)
    (h : IsAnyChannelFree chs = true) : firstFreeIdx chs < chs.length := by
  induction chs with
  | nil => simp [IsAnyChannelFree] at h
  | cons c rest ih =>
    by_cases hc : c.cur_note = 0
    · simp [firstFreeIdx, hc]
    · have h' : IsAnyChannelFree rest = true := by
        simpa [IsAnyChannelFree, hc] using h
      simpa [firstFreeIdx, hc] using Nat.succ_lt_succ (ih h')

theorem getD_firstFreeIdx (chs : List ChannelStatus)
    (h : IsAnyChannelFree chs = true) :
    (chs.getD (firstFreeIdx chs) default).cur_note = 0 := by
  induction chs with
  | nil => simp [IsAnyChannelFree] at h
  | cons c rest ih =>
    by_cases hc : c.cur_note = 0
    · simpa [firstFreeIdx, hc] using hc
    · have h' : IsAnyChannelFree rest = true := by
        simpa [IsAnyChannelFree, hc] using h
      simpa [firstFreeIdx, hc] using ih h'

theorem before_firstFreeIdx (chs : List ChannelStatus) (k : Nat)
    (hk : k < firstFreeIdx chs) :
    (chs.getD k default).cur_note ≠ 0 := by
  induction chs generalizing k with
  | nil => simp [firstFreeIdx] at hk
  | cons c rest ih =>
    by_cases hc : c.cur_note = 0
    · simp [firstFreeIdx, hc] at hk
    · cases k with
      | zero => simpa using hc
      | succ m =>
        have hm : m < firstFreeIdx rest := by simpa [firstFreeIdx, hc] using hk
        simpa using ih m hm

theorem all_occupied (chs : List ChannelStatus)
    (h : IsAnyChannelFree chs = false) :
    ∀ k, k < chs.length → (chs.getD k default).cur_note ≠ 0 := by
  induction chs with
  | nil => intro k hk; exact absurd hk (Nat.not_lt_zero k)
  | cons c rest ih =>
    intro k hk
    by_cases hc : c.cur_note = 0
    · simp [IsAnyChannelFree, hc] at h
    · cases k with
      | zero => simpa using hc
      | succ m =>
        exact ih (by simpa [IsAnyChannelFree, hc] using h) m (by simpa using hk)

theorem scanChannels_free (l : List ChannelStatus) (i maxc best : Nat)
    (h : IsAnyChannelFree l = true) :
    scanChannels l i maxc best = i + firstFreeIdx l := by
  induction l generalizing i maxc best with
  | nil => simp [IsAnyChannelFree] at h
  | cons c rest ih =>
    by_cases hc : c.cur_note = 0
    · simp [scanChannels, firstFreeIdx, hc]
    · have h' : IsAnyChannelFree rest = true := by
        simpa [IsAnyChannelFree, hc] using h
      simp only [scanChannels, firstFreeIdx, hc, if_false, if_neg hc]
      rw [ih _ _ _ h']
      omega

theorem scanChannels_v1_eq (l : List ChannelStatus) (i maxc best : Nat) :
    scanChannels_v1 l i maxc best = (scanChannels l i maxc best, IsAnyChannelFree l) := by
  induction l generalizing i maxc best with
  | nil => rfl
  | cons c rest ih =>
    by_cases hc : c.cur_note = 0 <;>
      simp [scanChannels_v1, scanChannels, IsAnyChannelFree, hc, ih]

theorem scanChannels_nofree (l : List ChannelStatus) (i maxc best : Nat)
    (h : IsAnyChannelFree l = false) :
    (scanChannels l i maxc best = best ∧
      ∀ k, k < l.length → (l.getD k default).contest ≤ maxc) ∨
    (∃ j, j < l.length ∧ scanChannels l i maxc best = i + j ∧
      maxc < (l.getD j default).contest ∧
      (∀ k, k < j → (l.getD k default).contest < (l.getD j default).contest) ∧
      (∀ k, k < l.length → (l.getD k default).contest ≤ (l.getD j default).contest)) := by
  induction l generalizing i maxc best with
  | nil =>
    left
    exact ⟨rfl, fun k hk => absurd hk (Nat.not_lt_zero k)⟩
  | cons c rest ih =>
    have hc : ¬ c.cur_note = 0 := by
      intro hc
      simp [IsAnyChannelFree, hc] at h
    have h' : IsAnyChannelFree rest = false := by
      simpa [IsAnyChannelFree, hc] using h
    have hstep : scanChannels (c :: rest) i maxc best =
        scanChannels rest (i + 1) (if maxc < c.contest then c.contest else maxc)
          (if maxc < c.contest then i else best) := by
      simp [scanChannels, hc]
    by_cases hm : maxc < c.contest
    · rcases ih (i + 1) c.contest i h' with ⟨heq, hle⟩ | ⟨j, hj, heq, hgt, hbefore, hle⟩
      · right
        refine ⟨0, by simp, ?_, by simpa using hm, ?_, ?_⟩
        · rw [hstep, if_pos hm, if_pos hm, heq]
          omega
        · intro k hk
          exact absurd hk (Nat.not_lt_zero k)
        · intro k hk
          cases k with
          | zero => simp
          | succ m => simpa using hle m (by simpa using hk)
      · right
        refine ⟨j + 1, by simpa using hj, ?_, ?_, ?_, ?_⟩
        · rw [hstep, if_pos hm, if_pos hm, heq]
          omega
        · simpa using lt_trans hm hgt
        · intro k hk
          cases k with
          | zero => simpa using hgt
          | succ m => simpa using hbefore m (by omega)
        · intro k hk
          cases k with
          | zero => simpa using le_of_lt hgt
          | succ m => simpa using hle m (by simpa using hk)
    · rcases ih (i + 1) maxc best h' with ⟨heq, hle⟩ | ⟨j, hj, heq, hgt, hbefore, hle⟩
      · left
        refine ⟨?_, ?_⟩
        · rw [hstep, if_neg hm, if_neg hm, heq]
        · intro k hk
          cases k with
          | zero => simpa using Nat.le_of_not_lt hm
          | succ m => simpa using hle m (by simpa using hk)
      · right
        refine ⟨j + 1, by simpa using hj, ?_, hgt, ?_, ?_⟩
        · rw [hstep, if_neg hm, if_neg hm, heq]
          omega
        · intro k hk
          cases k with
          | zero => simpa using lt_of_le_of_lt (Nat.le_of_not_lt hm) hgt
          | succ m => simpa using hbefore m (by omega)
        · intro k hk
          cases k with
          | zero => simpa using le_of_lt (lt_of_le_of_lt (Nat.le_of_not_lt hm) hgt)
          | succ m => simpa using hle m (by simpa using hk)

/-- Characterization of the channel-selection scan over nine channels:
the scanned index is below 9; with a free channel it is the first free
index; with no free channel it is the first index attaining the maximal
(just incremented) contest value. -/
theorem scan_top_char (chs : List ChannelStatus) (h9 : chs.length = 9) :
    scanChannels (bumpContest chs) 0 0 0 < 9 ∧
    (IsAnyChannelFree chs = true →
       scanChannels (bumpContest chs) 0 0 0 = firstFreeIdx chs) ∧
    (IsAnyChannelFree chs = false →
       (∀ k, k < 9 → ((bumpContest chs).getD k default).contest ≤
         ((bumpContest chs).getD (scanChannels (bumpContest chs) 0 0 0) default).contest) ∧
       (∀ k, k < scanChannels (bumpContest chs) 0 0 0 →
         ((bumpContest chs).getD k default).contest <
         ((bumpContest chs).getD (scanChannels (bumpContest chs) 0 0 0) default).contest)) := by
  have hbl : (bumpContest chs).length = 9 := by rw [length_bumpContest, h9]
  cases hAny : IsAnyChannelFree chs with
  | true =>
    have hblfree : IsAnyChannelFree (bumpContest chs) = true := by
      rw [isFree_bumpContest, hAny]
    have hsc : scanChannels (bumpContest chs) 0 0 0 = firstFreeIdx chs := by
      rw [scanChannels_free _ _ _ _ hblfree, firstFreeIdx_bumpContest]
      omega
    refine ⟨?_, fun _ => hsc, fun hf => ?_⟩
    · rw [hsc]
      have := firstFreeIdx_lt chs hAny
      omega
    · exact absurd hf (by simp)
  | false =>
    have hblfree : IsAnyChannelFree (bumpContest chs) = false := by
      rw [isFree_bumpContest, hAny]
    refine ⟨?_, fun ht => ?_, fun _ => ?_⟩
    · rcases scanChannels_nofree (bumpContest chs) 0 0 0 hblfree with
        ⟨heq, _⟩ | ⟨j, hj, heq, _, _, _⟩
      · omega
      · rw [heq]; omega
    · exact absurd ht (by simp)
    · rcases scanChannels_nofree (bumpContest chs) 0 0 0 hblfree with
        ⟨heq, hle⟩ | ⟨j, hj, heq, hgt, hbef, hle⟩
      · have h0 : ((bumpContest chs).getD 0 default).contest = 0 :=
          Nat.le_zero.mp (hle 0 (by omega))
        constructor
        · intro k hk
          rw [heq, h0]
          exact hle k (by omega)
        · intro k hk
          rw [heq] at hk
          exact absurd hk (Nat.not_lt_zero k)
      · have hsc : scanChannels (bumpContest chs) 0 0 0 = j := by rw [heq]; omega
        constructor
        · intro k hk
          rw [hsc]
          exact hle k (by omega)
        · intro k hk
          rw [hsc] at hk ⊢
          exact hbef k hk

/-! Theorems for the claims. -/

/-- C1: in both revisions, every call to `SelectChannel` first increments
every channel's contest counter; if any channel is free the lowest-indexed
free channel is selected; otherwise the channel with the strictly highest
contest value (ties toward the lowest index) is stolen; the returned index
is in [0, 8]; the chosen channel's `cur_program` becomes the requested
program and its contest is reset to 0, all other channels keeping their
(bumped) state. -/
theorem C1_SelectChannel (chs : List ChannelStatus) (program : Nat)
    (h9 : chs.length = 9) :
    (SelectChannel_v1 chs program).1 = (SelectChannel_v2 chs program).1 ∧
    (SelectChannel_v2 chs program).1 ≤ 8 ∧
    (∀ k, k < 9 → (bumpContest chs).getD k default =
        { chs.getD k default with contest := u16 ((chs.getD k default).contest + 1) }) ∧
    (IsAnyChannelFree chs = true →
        (SelectChannel_v2 chs program).1 = firstFreeIdx chs ∧
        (chs.getD (firstFreeIdx chs) default).cur_note = 0 ∧
        ∀ k, k < firstFreeIdx chs → (chs.getD k default).cur_note ≠ 0) ∧
    (IsAnyChannelFree chs = false →
        (∀ k, k < 9 → ((bumpContest chs).getD k default).contest ≤
            ((bumpContest chs).getD ((SelectChannel_v2 chs program).1) default).contest) ∧
        ∀ k, k < (SelectChannel_v2 chs program).1 →
            ((bumpContest chs).getD k default).contest <
            ((bumpContest chs).getD ((SelectChannel_v2 chs program).1) default).contest) ∧
    ((SelectChannel_v2 chs program).2.2.getD ((SelectChannel_v2 chs program).1) default =
        { (bumpContest chs).getD ((SelectChannel_v2 chs program).1) default with
          cur_program := program, contest := 0 } ∧
     (∀ k, k ≠ (SelectChannel_v2 chs program).1 →
        (SelectChannel_v2 chs program).2.2.getD k default =
          (bumpContest chs).getD k default) ∧
     (SelectChannel_v1 chs program).2.2 = (SelectChannel_v2 chs program).2.2) := by
  have hbl : (bumpContest chs).length = 9 := by rw [length_bumpContest, h9]
  obtain ⟨hlt, hfree, hsteal⟩ := scan_top_char chs h9
  have hmin : min (scanChannels (bumpContest chs) 0 0 0) 8 =
      scanChannels (bumpContest chs) 0 0 0 := min_eq_left (by omega)
  have hv2_1 : (SelectChannel_v2 chs program).1 =
      scanChannels (bumpContest chs) 0 0 0 := by
    simp only [SelectChannel_v2, hmin]
  have hv2_chs : (SelectChannel_v2 chs program).2.2 =
      updateAt (bumpContest chs) (scanChannels (bumpContest chs) 0 0 0)
        (fun c => { c with cur_program := program, contest := 0 }) := by
    simp only [SelectChannel_v2, hmin]
  have hv1_1 : (SelectChannel_v1 chs program).1 =
      scanChannels (bumpContest chs) 0 0 0 := by
    cases hAny : IsAnyChannelFree chs with
    | true =>
      simp only [SelectChannel_v1, scanChannels_v1_eq, isFree_bumpContest, hAny,
        if_true]
    | false =>
      simp only [SelectChannel_v1, scanChannels_v1_eq, isFree_bumpContest, hAny,
        Bool.false_eq_true, if_false, hmin]
  have hv1_chs : (SelectChannel_v1 chs program).2.2 =
      updateAt (bumpContest chs) (scanChannels (bumpContest chs) 0 0 0)
        (fun c => { c with cur_program := program, contest := 0 }) := by
    cases hAny : IsAnyChannelFree chs with
    | true =>
      simp only [SelectChannel_v1, scanChannels_v1_eq, isFree_bumpContest, hAny,
        if_true]
    | false =>
      simp only [SelectChannel_v1, scanChannels_v1_eq, isFree_bumpContest, hAny,
        Bool.false_eq_true, if_false, hmin]
  refine ⟨?_, ?_, ?_, ?_, ?_, ?_, ?_, ?_⟩
  · rw [hv1_1, hv2_1]
  · rw [hv2_1]
    omega
  · intro k hk
    exact getD_bumpContest chs k (by omega)
  · intro hAny
    exact ⟨by rw [hv2_1]; exact hfree hAny, getD_firstFreeIdx chs hAny,
      fun k hk => before_firstFreeIdx chs k hk⟩
  · intro hAny
    rw [hv2_1]
    exact hsteal hAny
  · rw [hv2_chs, hv2_1]
    exact getD_updateAt_self _ _ _ _ (by omega)
  · intro k hk
    rw [hv2_1] at hk
    rw [hv2_chs]
    exact getD_updateAt_ne _ _ _ _ _ hk
  · rw [hv1_chs, hv2_chs]

/-- Witness for C1 at a concrete channel list: channel 2 is the first free
channel and both revisions select it. -/
theorem C1_SelectChannel_witness :
    (SelectChannel_v2 chsW1 9).1 = 2 ∧ (SelectChannel_v1 chsW1 9).1 = 2 := by
  have h := C1_SelectChannel chsW1 9 (by decide)
  have h2 := (h.2.2.2.1 (by decide)).1
  refine ⟨?_, ?_⟩
  · rw [h2]
    decide
  · rw [h.1, h2]
    decide

/-- C2 counterexample: with all nine channels occupied, the first
revision's `SelectChannel` steals channel 3 (the largest contest), yet
reports `needprogram = false` although the stolen channel's previously
loaded program (5) differs from the requested program (7) — so
`needs_reprogram` is not equivalent to "previous program differs" in the
channel-stealing case of the first revision. -/
theorem C2_counterexample :
    (SelectChannel_v1 chsOcc 7).2.1 = false ∧
    (SelectChannel_v1 chsOcc 7).1 = 3 ∧
    (chsOcc.getD 3 default).cur_program = 5 ∧ (5 : Nat) ≠ 7 := by decide

/-- C2 amended: in the second revision `needs_reprogram` is true iff the
selected channel's previously loaded program differs from the requested
program, in both the free-channel and the stealing case; in the first
revision this holds in the free-channel case, while in the stealing case
`needs_reprogram` is always false. -/
theorem C2_needprogram (chs : List ChannelStatus) (program : Nat)
    (h9 : chs.length = 9) :
    ((SelectChannel_v2 chs program).2.1 = true ↔
       program ≠ (chs.getD (SelectChannel_v2 chs program).1 default).cur_program) ∧
    (IsAnyChannelFree chs = true →
       ((SelectChannel_v1 chs program).2.1 = true ↔
          program ≠ (chs.getD (SelectChannel_v1 chs program).1 default).cur_program)) ∧
    (IsAnyChannelFree chs = false → (SelectChannel_v1 chs program).2.1 = false) := by
  have hbl : (bumpContest chs).length = 9 := by rw [length_bumpContest, h9]
  obtain ⟨hlt, hfree, hsteal⟩ := scan_top_char chs h9
  have hmin : min (scanChannels (bumpContest chs) 0 0 0) 8 =
      scanChannels (bumpContest chs) 0 0 0 := min_eq_left (by omega)
  have hcp : ((bumpContest chs).getD (scanChannels (bumpContest chs) 0 0 0)
        default).cur_program =
      (chs.getD (scanChannels (bumpContest chs) 0 0 0) default).cur_program := by
    rw [getD_bumpContest chs _ (by omega)]
  have hv2_1 : (SelectChannel_v2 chs program).1 =
      scanChannels (bumpContest chs) 0 0 0 := by
    simp only [SelectChannel_v2, hmin]
  have hv2_need : (SelectChannel_v2 chs program).2.1 =
      decide (program ≠ ((bumpContest chs).getD
        (scanChannels (bumpContest chs) 0 0 0) default).cur_program) := by
    simp only [SelectChannel_v2, hmin]
  refine ⟨?_, ?_, ?_⟩
  · rw [hv2_need, hv2_1, hcp]
    exact decide_eq_true_iff
  · intro hAny
    have hv1_1 : (SelectChannel_v1 chs program).1 =
        scanChannels (bumpContest chs) 0 0 0 := by
      simp only [SelectChannel_v1, scanChannels_v1_eq, isFree_bumpContest, hAny,
        if_true]
    have hv1_need : (SelectChannel_v1 chs program).2.1 =
        decide (program ≠ ((bumpContest chs).getD
          (scanChannels (bumpContest chs) 0 0 0) default).cur_program) := by
      simp only [SelectChannel_v1, scanChannels_v1_eq, isFree_bumpContest, hAny,
        if_true]
    rw [hv1_need, hv1_1, hcp]
    exact decide_eq_true_iff
  · intro hAny
    simp only [SelectChannel_v1, scanChannels_v1_eq, isFree_bumpContest, hAny,
      Bool.false_eq_true, if_false]

/-- Witness for the amended C2 at a concrete channel list: the free channel
holds program 5, program 9 is requested, and both revisions report
`needprogram = true`. -/
theorem C2_needprogram_witness :
    (SelectChannel_v2 chsW1 9).2.1 = true ∧ (SelectChannel_v1 chsW1 9).2.1 = true := by
  have h := C2_needprogram chsW1 9 (by decide)
  exact ⟨h.1.mpr (by decide), (h.2.1 (by decide)).mpr (by decide)⟩

/-- Projections of `SelectChannel_v2` over nine channels. -/
theorem SelectChannel_v2_proj (chs : List ChannelStatus) (program : Nat)
    (h9 : chs.length = 9) :
    (SelectChannel_v2 chs program).1 = scanChannels (bumpContest chs) 0 0 0 ∧
    (SelectChannel_v2 chs program).2.2 =
      updateAt (bumpContest chs) (scanChannels (bumpContest chs) 0 0 0)
        (fun c => { c with cur_program := program, contest := 0 }) := by
  obtain ⟨hlt, -, -⟩ := scan_top_char chs h9
  have hmin : min (scanChannels (bumpContest chs) 0 0 0) 8 =
      scanChannels (bumpContest chs) 0 0 0 := min_eq_left (by omega)
  exact ⟨by simp only [SelectChannel_v2, hmin], by simp only [SelectChannel_v2, hmin]⟩

/-- Pointwise description of the velocity-zero key-off loop. -/
theorem keyOffChannels_spec (chs : List ChannelStatus) (i tracknum notenum : Nat) :
    (keyOffChannels chs i tracknum notenum).1.length = chs.length ∧
    ∀ k, k < chs.length →
      (((chs.getD k default).cur_note = notenum ∧
          (chs.getD k default).owning_track = tracknum) →
        ((keyOffChannels chs i tracknum notenum).1.getD k default =
            { chs.getD k default with cur_note := 0 } ∧
          (0xB0 + (i + k), (chs.getD k default).cur_bn_fh) ∈
            (keyOffChannels chs i tracknum notenum).2)) ∧
      (¬((chs.getD k default).cur_note = notenum ∧
          (chs.getD k default).owning_track = tracknum) →
        (keyOffChannels chs i tracknum notenum).1.getD k default =
          chs.getD k default) := by
  induction chs generalizing i with
  | nil => exact ⟨rfl, fun k hk => absurd hk (Nat.not_lt_zero k)⟩
  | cons c rest ih =>
    obtain ⟨ihlen, ihk⟩ := ih (i + 1)
    by_cases hmatch : c.cur_note = notenum ∧ c.owning_track = tracknum
    · constructor
      · simp [keyOffChannels, hmatch, ihlen]
      · intro k hk
        cases k with
        | zero =>
          constructor
          · intro _
            constructor
            · simp [keyOffChannels, hmatch]
            · simp [keyOffChannels, hmatch]
          · intro hnot
            exact absurd (by simpa using hmatch) (by simpa using hnot)
        | succ m =>
          have hm : m < rest.length := by simpa using hk
          constructor
          · intro hmm
            obtain ⟨h1, h2⟩ := (ihk m hm).1 (by simpa using hmm)
            have harith : i + 1 + m = i + (m + 1) := by omega
            rw [harith] at h2
            refine ⟨by simpa [keyOffChannels, hmatch] using h1, ?_⟩
            have hw : (keyOffChannels (c :: rest) i tracknum notenum).2 =
                (0xB0 + i, c.cur_bn_fh) ::
                  (keyOffChannels rest (i + 1) tracknum notenum).2 := by
              simp [keyOffChannels, hmatch]
            rw [hw]
            exact List.mem_cons_of_mem _ h2
          · intro hmm
            have h1 := (ihk m hm).2 (by simpa using hmm)
            simpa [keyOffChannels, hmatch] using h1
    · constructor
      · simp [keyOffChannels, hmatch, ihlen]
      · intro k hk
        cases k with
        | zero =>
          constructor
          · intro hmm
            exact absurd (by simpa using hmm) (by simpa using hmatch)
          · intro _
            simp [keyOffChannels, hmatch]
        | succ m =>
          have hm : m < rest.length := by simpa using hk
          constructor
          · intro hmm
            obtain ⟨h1, h2⟩ := (ihk m hm).1 (by simpa using hmm)
            have harith : i + 1 + m = i + (m + 1) := by omega
            rw [harith] at h2
            refine ⟨by simpa [keyOffChannels, hmatch] using h1, ?_⟩
            have hw : (keyOffChannels (c :: rest) i tracknum notenum).2 =
                (keyOffChannels rest (i + 1) tracknum notenum).2 := by
              simp [keyOffChannels, hmatch]
            rw [hw]
            exact h2
          · intro hmm
            have h1 := (ihk m hm).2 (by simpa using hmm)
            simpa [keyOffChannels, hmatch] using h1

/-- Velocity-zero branch of both revisions' `DoPlayNote` cores. -/
theorem core_keyoff_v2 (s : AdlibState) (tracknum note' : Nat)
    (instrument : InstrumentDef) (progkey : Nat) :
    DoPlayNoteCore_v2 s tracknum 0 note' instrument progkey =
      ({ s with channels := (keyOffChannels s.channels 0 tracknum note').1 },
       (keyOffChannels s.channels 0 tracknum note').2) := by
  simp [DoPlayNoteCore_v2]

theorem core_keyoff_v1 (s : AdlibState) (tracknum note' : Nat)
    (instrument : InstrumentDef) (progkey : Nat) :
    DoPlayNoteCore_v1 s tracknum 0 note' instrument progkey =
      ({ s with channels := (keyOffChannels s.channels 0 tracknum note').1 },
       (keyOffChannels s.channels 0 tracknum note').2) := by
  simp [DoPlayNoteCore_v1]

/-- Channels and tracks after the note-on branch of the second revision's
core, with a free channel available: the first free channel is claimed
(note and owner set), all other channels keep their note, and the tracks
are untouched. -/
theorem core_noteon_v2 (s : AdlibState) (tracknum velocity note' : Nat)
    (instrument : InstrumentDef) (progkey : Nat)
    (h9 : s.channels.length = 9) (hv : velocity ≠ 0)
    (hfree : IsAnyChannelFree s.channels = true) :
    (((DoPlayNoteCore_v2 s tracknum velocity note' instrument progkey).1.channels.getD
        (firstFreeIdx s.channels) default).cur_note = note' ∧
     ((DoPlayNoteCore_v2 s tracknum velocity note' instrument progkey).1.channels.getD
        (firstFreeIdx s.channels) default).owning_track = tracknum) ∧
    (∀ k, k ≠ firstFreeIdx s.channels →
       ((DoPlayNoteCore_v2 s tracknum velocity note' instrument
           progkey).1.channels.getD k default).cur_note =
         (s.channels.getD k default).cur_note) ∧
    (DoPlayNoteCore_v2 s tracknum velocity note' instrument
        progkey).1.tracks = s.tracks := by
  obtain ⟨hproj1, hproj2⟩ := SelectChannel_v2_proj s.channels progkey h9
  obtain ⟨-, hfr, -⟩ := scan_top_char s.channels h9
  have hch : (SelectChannel_v2 s.channels progkey).1 = firstFreeIdx s.channels := by
    rw [hproj1, hfr hfree]
  have hj : firstFreeIdx s.channels < 9 := by
    have := firstFreeIdx_lt s.channels hfree
    omega
  have hcore : (DoPlayNoteCore_v2 s tracknum velocity note' instrument
      progkey).1.channels =
      updateAt (updateAt (updateAt ((SelectChannel_v2 s.channels progkey).2.2)
          ((SelectChannel_v2 s.channels progkey).1)
          (fun c => { c with velocity := velocity, cur_note := note',
                             owning_track := tracknum }))
        ((SelectChannel_v2 s.channels progkey).1)
        (fun c => { c with cur_freqnum := CalcFrequency s tracknum note' }))
      ((SelectChannel_v2 s.channels progkey).1)
      (fun c => { c with cur_bn_fh :=
        (note_blocknum.getD note' 0 <<< 2) |||
          (CalcFrequency s tracknum note' >>> 8) }) := by
    simp only [DoPlayNoteCore_v2, if_neg hv, DoNoteOn]
  have htr : (DoPlayNoteCore_v2 s tracknum velocity note' instrument
      progkey).1.tracks = s.tracks := by
    simp only [DoPlayNoteCore_v2, if_neg hv, DoNoteOn]
  have hlen2 : ((SelectChannel_v2 s.channels progkey).2.2).length = 9 := by
    rw [hproj2, length_updateAt, length_bumpContest, h9]
  refine ⟨?_, ?_, htr⟩
  · rw [hcore, hch]
    rw [getD_updateAt_self _ _ _ _ (by rw [length_updateAt, length_updateAt, hlen2]; omega)]
    rw [getD_updateAt_self _ _ _ _ (by rw [length_updateAt, hlen2]; omega)]
    rw [getD_updateAt_self _ _ _ _ (by rw [hlen2]; omega)]
    exact ⟨rfl, rfl⟩
  · intro k hk
    rw [hcore, hch]
    rw [getD_updateAt_ne _ _ _ _ _ hk, getD_updateAt_ne _ _ _ _ _ hk,
      getD_updateAt_ne _ _ _ _ _ hk, hproj2, hfr hfree,
      getD_updateAt_ne _ _ _ _ _ hk]
    by_cases hklen : k < 9
    · rw [getD_bumpContest s.channels k (by omega)]
    · rw [List.getD_eq_default _ _ (by rw [length_bumpContest]; omega),
        List.getD_eq_default _ _ (by omega)]

/-- Over `List.range n`, a predicate that holds exactly at `j` filters to a
single element. -/
theorem filter_range_one (p : Nat → Bool) (n j : Nat) (hj : j < n)
    (hp : p j = true) (hother : ∀ k, k < n → k ≠ j → p k = false) :
    ((List.range n).filter p).length = 1 := by
  induction n with
  | zero => exact absurd hj (Nat.not_lt_zero j)
  | succ m ih =>
    rw [List.range_succ, List.filter_append]
    by_cases hjm : j = m
    · have hnil : (List.range m).filter p = [] := by
        rw [List.filter_eq_nil]
        intro a ha
        rw [List.mem_range] at ha
        simp [hother a (by omega) (by omega)]
      rw [hnil]
      simp [← hjm, hp]
    · have hm : p m = false := hother m (by omega) (fun h => hjm h.symm)
      rw [List.length_append, ih (by omega) (fun k hk hkj => hother k (by omega) hkj)]
      simp [hm]

/-- Over `List.range n`, a predicate that never holds filters to nil. -/
theorem filter_range_nil (p : Nat → Bool) (n : Nat)
    (hother : ∀ k, k < n → p k = false) :
    ((List.range n).filter p).length = 0 := by
  have hnil : (List.range n).filter p = [] := by
    rw [List.filter_eq_nil]
    intro a ha
    rw [List.mem_range] at ha
    simp [hother a ha]
  rw [hnil]
  rfl

/-- Unfolding of the second revision's `DoPlayNote` on a melodic track with
a loadable program. -/
theorem DoPlayNote_v2_melodic (s : AdlibState) (tracknum velocity notenum : Nat)
    (h9t : tracknum ≠ 9)
    (hguard : (s.tracks.getD tracknum default).program ≠ 0xFF)
    (hlen : (s.tracks.getD tracknum default).program < s.melpatches.length) :
    DoPlayNote_v2 s tracknum velocity notenum =
      some (DoPlayNoteCore_v2 s tracknum velocity (bsub notenum 1)
        (s.melpatches.get ⟨(s.tracks.getD tracknum default).program, hlen⟩)
        (s.tracks.getD tracknum default).program) := by
  have hinstr : s.melpatches.get? (s.tracks.getD tracknum default).program =
      some (s.melpatches.get ⟨(s.tracks.getD tracknum default).program, hlen⟩) :=
    List.get?_eq_get hlen
  unfold DoPlayNote_v2
  rw [if_neg hguard, if_neg h9t, hinstr]

/-- Unfolding of the second revision's `DoPlayNote` on the percussion track
with an in-range percussion note. -/
theorem DoPlayNote_v2_perc (s : AdlibState) (velocity notenum : Nat)
    (hguard : (s.tracks.getD 9 default).program ≠ 0xFF)
    (hrange : bsub (bsub notenum 1) 34 ≤ 30)
    (hb1 : (perc_notes.getD (bsub (bsub notenum 1) 34) default).b1 <
      perc_instruments.length) :
    DoPlayNote_v2 s 9 velocity notenum =
      some (DoPlayNoteCore_v2 s 9 velocity
        (bsub (perc_notes.getD (bsub (bsub notenum 1) 34) default).b2 1)
        (perc_instruments.get
          ⟨(perc_notes.getD (bsub (bsub notenum 1) 34) default).b1, hb1⟩)
        ((perc_notes.getD (bsub (bsub notenum 1) 34) default).b1 + 0x80)) := by
  have hinstr : perc_instruments.get?
      (perc_notes.getD (bsub (bsub notenum 1) 34) default).b1 =
      some (perc_instruments.get
        ⟨(perc_notes.getD (bsub (bsub notenum 1) 34) default).b1, hb1⟩) :=
    List.get?_eq_get hb1
  have hnr : ¬ 30 < bsub (bsub notenum 1) 34 := by omega
  unfold DoPlayNote_v2
  rw [if_neg hguard, if_pos rfl, if_neg hnr]
  simp only [hinstr]

/-- Unfolding of the first revision's `DoPlayNote` on a melodic track with
a loadable program (no 0xFF guard, no note decrement). -/
theorem DoPlayNote_v1_melodic (s : AdlibState) (tracknum velocity notenum : Nat)
    (h9t : tracknum ≠ 9)
    (hlen : (s.tracks.getD tracknum default).program < s.melpatches.length) :
    DoPlayNote_v1 s tracknum velocity notenum =
      some (DoPlayNoteCore_v1 s tracknum velocity notenum
        (s.melpatches.get ⟨(s.tracks.getD tracknum default).program, hlen⟩)
        (s.tracks.getD tracknum default).program) := by
  have hinstr : s.melpatches.get? (s.tracks.getD tracknum default).program =
      some (s.melpatches.get ⟨(s.tracks.getD tracknum default).program, hlen⟩) :=
    List.get?_eq_get hlen
  simp only [DoPlayNote_v1]
  rw [if_neg h9t, hinstr]

/-- Unfolding of the first revision's `DoPlayNote` on the percussion track
with an in-range percussion note (the translation differs from the second
revision by one). -/
theorem DoPlayNote_v1_perc (s : AdlibState) (velocity notenum : Nat)
    (hrange : bsub ((notenum + 1) % 256) 35 ≤ 30)
    (hb1 : (perc_notes.getD (bsub ((notenum + 1) % 256) 35) default).b1 <
      perc_instruments.length) :
    DoPlayNote_v1 s 9 velocity notenum =
      some (DoPlayNoteCore_v1 s 9 velocity
        (bsub (perc_notes.getD (bsub ((notenum + 1) % 256) 35) default).b2 1)
        (perc_instruments.get
          ⟨(perc_notes.getD (bsub ((notenum + 1) % 256) 35) default).b1, hb1⟩)
        ((perc_notes.getD (bsub ((notenum + 1) % 256) 35) default).b1 + 0x80)) := by
  have hinstr : perc_instruments.get?
      (perc_notes.getD (bsub ((notenum + 1) % 256) 35) default).b1 =
      some (perc_instruments.get
        ⟨(perc_notes.getD (bsub ((notenum + 1) % 256) 35) default).b1, hb1⟩) :=
    List.get?_eq_get hb1
  have hnr : ¬ 30 < bsub ((notenum + 1) % 256) 35 := by omega
  simp only [DoPlayNote_v1]
  rw [if_pos trivial, if_neg hnr, hinstr]

/-- C9: in the second revision, any `DoPlayNote` call on a track whose
program is 0xFF returns immediately, leaving the whole player state and
the synthesizer registers (the emitted write list) unchanged; the first
revision has no such guard — concretely, a percussion note-off on track 9
with program 0xFF still frees the matching channel 0 (note 81) and emits
its key-off register write. -/
theorem C9_program_guard :
    (∀ (s : AdlibState) (tracknum velocity notenum : Nat),
        (s.tracks.getD tracknum default).program = 0xFF →
        DoPlayNote_v2 s tracknum velocity notenum = some (s, [])) ∧
    ((c9state.tracks.getD 9 default).program = 0xFF ∧
     (c9state.channels.getD 0 default).cur_note = 81 ∧
     (DoPlayNote_v1 c9state 9 0 45).map
        (fun r => ((r.1.channels.getD 0 default).cur_note, r.2)) =
       some (0, [(0xB0, 0x11)])) := by
  constructor
  · intro s tracknum velocity notenum h
    unfold DoPlayNote_v2
    rw [if_pos h]
  · exact ⟨by decide, by decide, by decide⟩

/-- Witness for C9: a note-on on melodic track 2 with program 0xFF in the
second revision leaves the concrete state untouched and writes nothing. -/
theorem C9_program_guard_witness :
    DoPlayNote_v2 c9wstate 2 64 40 = some (c9wstate, []) :=
  C9_program_guard.1 c9wstate 2 64 40 (by decide)

/-- C7 counterexample: a note-off (`DoPlayNote` with velocity 0) in the
second revision on a track whose program is 0xFF returns with every
channel untouched, although channel 4 matches the event's track (2) and
translated note (40 - 1 = 39) — the matching channel does not become
free, refuting "every matching channel becomes free" as stated. -/
theorem C7_counterexample :
    DoPlayNote_v2 c7state 2 0 40 = some (c7state, []) ∧
    (c7state.channels.getD 4 default).cur_note = 39 ∧
    (c7state.channels.getD 4 default).owning_track = 2 ∧
    bsub 40 1 = 39 ∧ (39 : Nat) ≠ 0 := by decide

/-- C7 amended: provided the note-off passes the second revision's
uninitialized-program guard and its note translation is in range, every
channel whose `(owning_track, cur_note)` matches the event's track and
translated note is freed and receives its key-off register write, and
every other channel is untouched; the first revision behaves the same,
with its own note translation (raw melodic note; percussion offset by
one). -/
theorem C7_noteoff (s : AdlibState) (tracknum notenum note2 note1 : Nat)
    (hguard : (s.tracks.getD tracknum default).program ≠ 0xFF)
    (hmel : tracknum ≠ 9 →
       (s.tracks.getD tracknum default).program < s.melpatches.length ∧
       note2 = bsub notenum 1 ∧ note1 = notenum)
    (hperc2 : tracknum = 9 →
       bsub (bsub notenum 1) 34 ≤ 30 ∧
       (perc_notes.getD (bsub (bsub notenum 1) 34) default).b1 <
         perc_instruments.length ∧
       note2 = bsub (perc_notes.getD (bsub (bsub notenum 1) 34) default).b2 1)
    (hperc1 : tracknum = 9 →
       bsub ((notenum + 1) % 256) 35 ≤ 30 ∧
       (perc_notes.getD (bsub ((notenum + 1) % 256) 35) default).b1 <
         perc_instruments.length ∧
       note1 = bsub (perc_notes.getD (bsub ((notenum + 1) % 256) 35) default).b2 1) :
    (DoPlayNote_v2 s tracknum 0 notenum =
       some ({ s with channels := (keyOffChannels s.channels 0 tracknum note2).1 },
         (keyOffChannels s.channels 0 tracknum note2).2) ∧
     DoPlayNote_v1 s tracknum 0 notenum =
       some ({ s with channels := (keyOffChannels s.channels 0 tracknum note1).1 },
         (keyOffChannels s.channels 0 tracknum note1).2)) ∧
    (∀ note', ∀ k, k < s.channels.length →
      (((s.channels.getD k default).cur_note = note' ∧
          (s.channels.getD k default).owning_track = tracknum) →
        ((keyOffChannels s.channels 0 tracknum note').1.getD k default =
            { s.channels.getD k default with cur_note := 0 } ∧
          (0xB0 + k, (s.channels.getD k default).cur_bn_fh) ∈
            (keyOffChannels s.channels 0 tracknum note').2)) ∧
      (¬((s.channels.getD k default).cur_note = note' ∧
          (s.channels.getD k default).owning_track = tracknum) →
        (keyOffChannels s.channels 0 tracknum note').1.getD k default =
          s.channels.getD k default)) := by
  constructor
  · by_cases ht9 : tracknum = 9
    · subst ht9
      obtain ⟨hr2, hb2, hn2⟩ := hperc2 rfl
      obtain ⟨hr1, hb1, hn1⟩ := hperc1 rfl
      rw [DoPlayNote_v2_perc s 0 notenum hguard hr2 hb2,
        DoPlayNote_v1_perc s 0 notenum hr1 hb1, core_keyoff_v2, core_keyoff_v1,
        ← hn2, ← hn1]
      exact ⟨rfl, rfl⟩
    · obtain ⟨hlen, hn2, hn1⟩ := hmel ht9
      rw [DoPlayNote_v2_melodic s tracknum 0 notenum ht9 hguard hlen,
        DoPlayNote_v1_melodic s tracknum 0 notenum ht9 hlen,
        core_keyoff_v2, core_keyoff_v1, ← hn2, ← hn1]
      exact ⟨rfl, rfl⟩
  · intro note' k hk
    have h := (keyOffChannels_spec s.channels 0 tracknum note').2 k hk
    constructor
    · intro hm
      obtain ⟨h1, h2⟩ := h.1 hm
      refine ⟨h1, ?_⟩
      simpa using h2
    · exact h.2

/-- Witness for the amended C7 at a concrete state: track 2 (program 0)
sends note-off 40; translated note 39 matches channel 4, which is freed
with its key-off write. -/
theorem C7_noteoff_witness :
    DoPlayNote_v2 c7wstate 2 0 40 =
      some ({ c7wstate with channels := (keyOffChannels c7wstate.channels 0 2 39).1 },
        (keyOffChannels c7wstate.channels 0 2 39).2) ∧
    ((keyOffChannels c7wstate.channels 0 2 39).1.getD 4 default).cur_note = 0 := by
  have h := C7_noteoff c7wstate 2 40 39 40 (by decide)
    (fun _ => by decide) (fun h => absurd h (by decide)) (fun h => absurd h (by decide))
  exact ⟨h.1.1, by decide⟩

/-- C6 counterexample: with all nine channels occupied, a valid note-on
with velocity 64 on melodic track 2 (program 0, in range) steals a
channel: no channel transitions from free to occupied, refuting "exactly
one channel transitions from free to occupied". -/
theorem C6_counterexample :
    (DoPlayNote_v2 c6state 2 64 40).map
        (fun r => freeToOcc c6state.channels r.1.channels) = some 0 ∧
    IsAnyChannelFree c6state.channels = false ∧ (64 : Nat) ≠ 0 := by decide

/-- C6 amended: for a note-on with velocity > 0 that passes the program
guard and translation, when at least one channel is free exactly one
channel — the lowest-indexed free one — transitions from free to occupied,
and its `owning_track`/`cur_note` match the event's track and translated
note (provided the translated note is nonzero); when no channel is free, a
channel is stolen and no channel transitions from free to occupied. -/
theorem C6_noteon (s : AdlibState) (tracknum velocity notenum note' : Nat)
    (h9 : s.channels.length = 9) (hv : velocity ≠ 0)
    (hguard : (s.tracks.getD tracknum default).program ≠ 0xFF)
    (hmel : tracknum ≠ 9 →
       (s.tracks.getD tracknum default).program < s.melpatches.length ∧
       note' = bsub notenum 1)
    (hperc : tracknum = 9 →
       bsub (bsub notenum 1) 34 ≤ 30 ∧
       (perc_notes.getD (bsub (bsub notenum 1) 34) default).b1 <
         perc_instruments.length ∧
       note' = bsub (perc_notes.getD (bsub (bsub notenum 1) 34) default).b2 1) :
    (DoPlayNote_v2 s tracknum velocity notenum).isSome = true ∧
    (IsAnyChannelFree s.channels = true →
       (s.channels.getD (firstFreeIdx s.channels) default).cur_note = 0 ∧
       (∀ k, k < firstFreeIdx s.channels →
          (s.channels.getD k default).cur_note ≠ 0) ∧
       ((dpnChannels_v2 s tracknum velocity notenum).getD
          (firstFreeIdx s.channels) default).cur_note = note' ∧
       ((dpnChannels_v2 s tracknum velocity notenum).getD
          (firstFreeIdx s.channels) default).owning_track = tracknum ∧
       (∀ k, k ≠ firstFreeIdx s.channels →
          ((dpnChannels_v2 s tracknum velocity notenum).getD k default).cur_note =
            (s.channels.getD k default).cur_note) ∧
       (note' ≠ 0 →
          freeToOcc s.channels (dpnChannels_v2 s tracknum velocity notenum) = 1)) ∧
    (IsAnyChannelFree s.channels = false →
       freeToOcc s.channels (dpnChannels_v2 s tracknum velocity notenum) = 0) := by
  have hcore : ∃ instrument progkey,
      DoPlayNote_v2 s tracknum velocity notenum =
        some (DoPlayNoteCore_v2 s tracknum velocity note' instrument progkey) := by
    by_cases ht9 : tracknum = 9
    · subst ht9
      obtain ⟨hr2, hb2, hn2⟩ := hperc rfl
      exact ⟨perc_instruments.get
          ⟨(perc_notes.getD (bsub (bsub notenum 1) 34) default).b1, hb2⟩,
        (perc_notes.getD (bsub (bsub notenum 1) 34) default).b1 + 0x80,
        by rw [hn2]; exact DoPlayNote_v2_perc s velocity notenum hguard hr2 hb2⟩
    · obtain ⟨hlen, hn2⟩ := hmel ht9
      exact ⟨s.melpatches.get ⟨(s.tracks.getD tracknum default).program, hlen⟩,
        (s.tracks.getD tracknum default).program,
        by rw [hn2]; exact DoPlayNote_v2_melodic s tracknum velocity notenum ht9 hguard hlen⟩
  obtain ⟨instrument, progkey, heq⟩ := hcore
  have hchan : dpnChannels_v2 s tracknum velocity notenum =
      (DoPlayNoteCore_v2 s tracknum velocity note' instrument progkey).1.channels := by
    rw [dpnChannels_v2, heq]
    rfl
  refine ⟨by rw [heq]; rfl, ?_, ?_⟩
  · intro hfree
    obtain ⟨⟨hnote, howner⟩, hframe, -⟩ :=
      core_noteon_v2 s tracknum velocity note' instrument progkey h9 hv hfree
    refine ⟨getD_firstFreeIdx s.channels hfree,
      fun k hk => before_firstFreeIdx s.channels k hk,
      by rw [hchan]; exact hnote, by rw [hchan]; exact howner,
      fun k hk => by rw [hchan]; exact hframe k hk, ?_⟩
    intro hnz
    rw [freeToOcc, hchan]
    apply filter_range_one _ 9 (firstFreeIdx s.channels)
      (by have := firstFreeIdx_lt s.channels hfree; omega)
    · have hpre := getD_firstFreeIdx s.channels hfree
      simp only [Bool.and_eq_true, decide_eq_true_eq]
      exact ⟨hpre, fun h => hnz (hnote.symm.trans h)⟩
    · intro k hkn hkj
      rw [hframe k hkj]
      by_cases h0 : (s.channels.getD k default).cur_note = 0 <;> simp [h0]
  · intro hocc
    rw [freeToOcc]
    apply filter_range_nil
    intro k hkn
    have hko := all_occupied s.channels hocc k (by omega)
    simp only [Bool.and_eq_false_iff, decide_eq_false_iff_not]
    exact Or.inl hko

/-- Witness for the amended C6 at a concrete state: channel 2 is the first
free channel; a note-on (velocity 64, note 40) on melodic track 2 claims
it with translated note 39 and owner 2, and exactly one channel goes from
free to occupied. -/
theorem C6_noteon_witness :
    ((dpnChannels_v2 c6wstate 2 64 40).getD 2 default).cur_note = 39 ∧
    ((dpnChannels_v2 c6wstate 2 64 40).getD 2 default).owning_track = 2 ∧
    freeToOcc c6wstate.channels (dpnChannels_v2 c6wstate 2 64 40) = 1 := by
  have h := C6_noteon c6wstate 2 64 40 39 (by decide) (by decide) (by decide)
    (fun _ => by decide) (fun h => absurd h (by decide))
  have hfree := h.2.1 (by decide)
  have hj : firstFreeIdx c6wstate.channels = 2 := by decide
  rw [← hj]
  exact ⟨hfree.2.2.1, hfree.2.2.2.1, hfree.2.2.2.2.2 (by decide)⟩

theorem getDx_updateAt_self (l : List α) (i : Nat) (f : α → α) (d : α)
    (h : i < l.length) :
    (updateAt l i f)[i]?.getD d = f (l[i]?.getD d) := by
  rw [← List.getD_eq_getElem?_getD, ← List.getD_eq_getElem?_getD]
  exact getD_updateAt_self l i f d h

theorem updateAt_updateAt (l : List α) (i : Nat) (f g : α → α) :
    updateAt (updateAt l i f) i g = updateAt l i (fun x => g (f x)) := by
  induction l generalizing i with
  | nil => rfl
  | cons x xs ih =>
    cases i with
    | zero => rfl
    | succ n => simp [updateAt, ih]

/-- C4 counterexample: the first revision's `LoadSong` stores the song's
first byte (here 60) raw as the tempo, without the `* 24 / 60` conversion
the claim states (which would give 24). -/
theorem C4_counterexample :
    (LoadSong_v1 (mkState (List.replicate 9 default)) [60, 0, 0, 0]).song_tempo = 60 ∧
    (60 : Int) ≠ 60 * 24 / 60 := by decide

/-- C4 amended: in the second revision, load and restart both set the song
tempo to `first byte * 24 / 60` (truncating); in the first revision the
load stores the raw first byte and restart does not touch the tempo; in
both revisions a controller-0 event with nonzero value v sets the tempo to
`v * 48 / 60`, and value 0 leaves it unchanged. -/
theorem C4_tempo (s : AdlibState) (data : List Nat) (tracknum v : Nat)
    (hp0 : s.songdata.getD (s.tracks.getD tracknum default).playpos 0 = 0xB0)
    (hp1 : s.songdata.getD ((s.tracks.getD tracknum default).playpos + 1) 0 = 0)
    (hp2 : s.songdata.getD
      ((s.tracks.getD tracknum default).playpos + 1 + 1) 0 = v) :
    (LoadSong_v2 s data).song_tempo = Int.ofNat (data.getD 0 0 * 24 / 60) ∧
    (RestartSong_v2 s).song_tempo = Int.ofNat (s.songdata.getD 0 0 * 24 / 60) ∧
    (LoadSong_v1 s data).song_tempo = Int.ofNat (data.getD 0 0) ∧
    (RestartSong_v1 s).song_tempo = s.song_tempo ∧
    ((trackBody_v2 s tracknum).map (fun r => r.1.song_tempo) =
       some (if v ≠ 0 then Int.ofNat (v * 48 / 60) else s.song_tempo)) ∧
    ((trackBody_v1 s tracknum).map (fun r => r.1.song_tempo) =
       some (if v ≠ 0 then Int.ofNat (v * 48 / 60) else s.song_tempo)) := by
  refine ⟨rfl, rfl, rfl, rfl, ?_, ?_⟩
  · simp only [List.getD_eq_getElem?_getD] at hp0 hp1 hp2
    simp [trackBody_v2, hp0, hp1, hp2,
      show (176 : Nat) &&& 240 = 176 from by decide]
    by_cases hv : v = 0 <;> simp [hv]
  · simp only [List.getD_eq_getElem?_getD] at hp0 hp1 hp2
    simp [trackBody_v1, hp0, hp1, hp2,
      show (176 : Nat) &&& 240 = 176 from by decide]
    by_cases hv : v = 0 <;> simp [hv]

/-- Witness for the amended C4 at a concrete state: a controller-0 event
with value 100 sets the tempo to 100 * 48 / 60 = 80 in both revisions; the
load and restart formulas are instantiated on a concrete song. -/
theorem C4_tempo_witness :
    (LoadSong_v2 c4wstate [60, 0, 0, 0]).song_tempo = 24 ∧
    (RestartSong_v2 c4wstate).song_tempo = 70 ∧
    (LoadSong_v1 c4wstate [60, 0, 0, 0]).song_tempo = 60 ∧
    (trackBody_v2 c4wstate 0).map (fun r => r.1.song_tempo) = some 80 ∧
    (trackBody_v1 c4wstate 0).map (fun r => r.1.song_tempo) = some 80 := by
  have h := C4_tempo c4wstate [60, 0, 0, 0] 0 100 (by decide) (by decide) (by decide)
  refine ⟨?_, ?_, ?_, ?_, ?_⟩
  · rw [h.1]
    decide
  · rw [h.2.1]
    decide
  · rw [h.2.2.1]
    decide
  · rw [h.2.2.2.2.1]
    decide
  · rw [h.2.2.2.2.2]
    decide

/-- C8 counterexample: a controller-7 event with value 255 sets the track
volume to 0 (byte increment wraps: 255 + 1 = 0 mod 256), not to
255 + 1 = 256 as the claim's "any nonzero value v yields volume v + 1"
states. -/
theorem C8_counterexample :
    (trackBody_v2 c8state 0).map
        (fun r => (r.1.tracks.getD 0 default).volume) = some 0 ∧
    (0 : Nat) ≠ 255 + 1 := by decide

/-- C8 amended: a controller-7 event with value 0 sets the track volume to
0; a nonzero value v sets it to (v + 1) mod 256, which is v + 1 for
v ≤ 254 and wraps to 0 for v = 255 (the volume is a byte); identically in
both revisions. -/
theorem C8_controller7 (s : AdlibState) (tracknum v : Nat)
    (hlen : tracknum < s.tracks.length)
    (hp0 : s.songdata.getD (s.tracks.getD tracknum default).playpos 0 = 0xB0)
    (hp1 : s.songdata.getD ((s.tracks.getD tracknum default).playpos + 1) 0 = 7)
    (hp2 : s.songdata.getD
      ((s.tracks.getD tracknum default).playpos + 1 + 1) 0 = v) :
    ((trackBody_v2 s tracknum).map
        (fun r => (r.1.tracks.getD tracknum default).volume) =
      some (if v = 0 then 0 else (v + 1) % 256)) ∧
    ((trackBody_v1 s tracknum).map
        (fun r => (r.1.tracks.getD tracknum default).volume) =
      some (if v = 0 then 0 else (v + 1) % 256)) ∧
    (0 < v → v < 255 → (v + 1) % 256 = v + 1) := by
  refine ⟨?_, ?_, fun h1 h2 => by omega⟩
  · simp only [List.getD_eq_getElem?_getD] at hp0 hp1 hp2
    simp [trackBody_v2, hp0, hp1, hp2,
      show (176 : Nat) &&& 240 = 176 from by decide, updateAt_updateAt,
      getDx_updateAt_self _ _ _ _ hlen]
    by_cases hv : v = 0 <;> simp [hv]
  · simp only [List.getD_eq_getElem?_getD] at hp0 hp1 hp2
    simp [trackBody_v1, hp0, hp1, hp2,
      show (176 : Nat) &&& 240 = 176 from by decide, updateAt_updateAt,
      getDx_updateAt_self _ _ _ _ hlen]
    by_cases hv : v = 0 <;> simp [hv]

/-- Witness for the amended C8: value 1 yields volume 2, value 0 yields
volume 0, in both revisions. -/
theorem C8_controller7_witness :
    (trackBody_v2 c8w1state 0).map
        (fun r => (r.1.tracks.getD 0 default).volume) = some 2 ∧
    (trackBody_v1 c8w0state 0).map
        (fun r => (r.1.tracks.getD 0 default).volume) = some 0 := by
  have h1 := C8_controller7 c8w1state 0 1 (by decide) (by decide) (by decide) (by decide)
  have h0 := C8_controller7 c8w0state 0 0 (by decide) (by decide) (by decide) (by decide)
  constructor
  · rw [h1.1]
    decide
  · rw [h0.2.1]
    decide

theorem length_clearChannels (chs : List ChannelStatus) :
    (clearChannels chs).length = chs.length := by
  simp [clearChannels]

theorem getD_clearChannels (chs : List ChannelStatus) (k : Nat)
    (h : k < chs.length) :
    (clearChannels chs).getD k default =
      { chs.getD k default with cur_program := 0xFF, cur_note := 0 } := by
  induction chs generalizing k with
  | nil => exact absurd h (Nat.not_lt_zero k)
  | cons c rest ih =>
    cases k with
    | zero => rfl
    | succ m => simpa [clearChannels] using ih m (by simpa using h)

/-- C5: a `PlayStep` call in PLAYING state advances `sampletime` by
`samples_step` and counts the countdown down by `song_tempo` (int16); when
the countdown stays positive nothing else happens (no track
interpretation); when it reaches ≤ 0 it is replenished by adding 0x94 and
one round of track interpretation runs, folding the per-track step over
the fixed order 0-8, 10-15 with the percussion track 9 last, and unstarted
tracks (playpos = 0) are skipped untouched — in both revisions (the first
revision additionally clears the channels, see the C10 theorem). -/
theorem C5_PlayStep (s : AdlibState) (fuel : Nat)
    (hst : s.status = Status.PLAYING) :
    (0 < wrap16 (s.tempo_ticks - s.song_tempo) →
       PlayStep_v2 fuel s = some ((({ s with
           sampletime := s.sampletime + s.samples_step,
           tempo_ticks := wrap16 (s.tempo_ticks - s.song_tempo) }), []), true) ∧
       PlayStep_v1 fuel s = some ((({ s with
           sampletime := s.sampletime + s.samples_step,
           tempo_ticks := wrap16 (s.tempo_ticks - s.song_tempo) }), []), true)) ∧
    (wrap16 (s.tempo_ticks - s.song_tempo) ≤ 0 →
       PlayStep_v2 fuel s = (doTracks_v2 fuel { s with
           sampletime := s.sampletime + s.samples_step,
           tempo_ticks := wrap16 (wrap16 (s.tempo_ticks - s.song_tempo) + 0x94) }).map
         (fun r => ((r.1, r.2), true)) ∧
       PlayStep_v1 fuel s = (doTracks_v1 fuel { s with
           sampletime := s.sampletime + s.samples_step,
           tempo_ticks := wrap16 (wrap16 (s.tempo_ticks - s.song_tempo) + 0x94) }).map
         (fun r => (({ r.1 with channels := clearChannels r.1.channels }, r.2), true))) ∧
    (trackorder = [0, 1, 2, 3, 4, 5, 6, 7, 8, 10, 11, 12, 13, 14, 15, 9] ∧
     trackorder.getLast? = some 9 ∧ (∀ t, t < 16 → t ∈ trackorder) ∧
     trackorder.Nodup) ∧
    (∀ s0 : AdlibState, doTracks_v2 fuel s0 =
       trackorder.foldlM (stepTrack_v2 fuel) (s0, []) ∧
     doTracks_v1 fuel s0 = trackorder.foldlM (stepTrack_v1 fuel) (s0, [])) ∧
    (∀ (acc : AdlibState × List RegWrite) (tr : Nat),
       (acc.1.tracks.getD tr default).playpos = 0 →
       stepTrack_v2 fuel acc tr = some acc ∧ stepTrack_v1 fuel acc tr = some acc) := by
  have hnot : ¬ s.status ≠ Status.PLAYING := by simp [hst]
  refine ⟨?_, ?_, ⟨rfl, by decide, by decide, by decide⟩, fun s0 => ⟨rfl, rfl⟩, ?_⟩
  · intro hpos
    constructor
    · simp only [PlayStep_v2, if_neg hnot]
      rw [if_pos hpos]
    · simp only [PlayStep_v1, if_neg hnot]
      rw [if_pos hpos]
  · intro hle
    have hnpos : ¬ (0 : Int) < wrap16 (s.tempo_ticks - s.song_tempo) := not_lt.mpr hle
    constructor
    · simp only [PlayStep_v2, if_neg hnot]
      rw [if_neg hnpos]
      simp
    · simp only [PlayStep_v1, if_neg hnot]
      rw [if_neg hnpos]
  · intro acc tr hpp
    simp only [List.getD_eq_getElem?_getD] at hpp
    constructor
    · simp [stepTrack_v2, hpp]
    · simp [stepTrack_v1, hpp]

/-- Witness for C5: on a concrete non-expiring state the countdown drops
from 50 to 40 with no other effect; on a concrete expiring state it is
replenished to -5 + 148 = 143, in both revisions. -/
theorem C5_PlayStep_witness :
    (PlayStep_v2 4 c5nstate).map (fun r => (r.1.1.tempo_ticks, r.2)) =
      some (40, true) ∧
    (PlayStep_v1 4 c5estate).map (fun r => r.1.1.tempo_ticks) = some 143 ∧
    (PlayStep_v2 4 c5estate).map (fun r => r.1.1.tempo_ticks) = some 143 := by
  have hn := (C5_PlayStep c5nstate 4 rfl).1 (by decide)
  have he := (C5_PlayStep c5estate 4 rfl).2.1 (by decide)
  refine ⟨?_, ?_, ?_⟩
  · rw [hn.1]
    decide
  · rw [he.2]
    decide
  · rw [he.1]
    decide

/-- C10: in the first revision every `PlayStep` call whose countdown
expires ends by setting every channel's `cur_note` to 0 and `cur_program`
to 0xFF; in the second revision the identical clearing block sits behind a
constant-false guard, never executes, and the step's result is exactly the
track-interpretation round's result, so channel occupancy persists. -/
theorem C10_channel_clear (s : AdlibState) (fuel : Nat)
    (hst : s.status = Status.PLAYING)
    (hexp : wrap16 (s.tempo_ticks - s.song_tempo) ≤ 0) :
    ((PlayStep_v1 fuel s).isSome = true →
       ∀ k, k < (psState_v1 fuel s).channels.length →
         ((psState_v1 fuel s).channels.getD k default).cur_note = 0 ∧
         ((psState_v1 fuel s).channels.getD k default).cur_program = 0xFF) ∧
    (∀ s3 w3, doTracks_v2 fuel { s with
         sampletime := s.sampletime + s.samples_step,
         tempo_ticks := wrap16 (wrap16 (s.tempo_ticks - s.song_tempo) + 0x94) } =
           some (s3, w3) →
       PlayStep_v2 fuel s = some ((s3, w3), true)) ∧
    (∀ t : AdlibState,
       (if (false : Bool) = true then
          { t with channels := clearChannels t.channels } else t) = t) := by
  have hnot : ¬ s.status ≠ Status.PLAYING := by simp [hst]
  have hnpos : ¬ (0 : Int) < wrap16 (s.tempo_ticks - s.song_tempo) := not_lt.mpr hexp
  have hv1 : PlayStep_v1 fuel s = (doTracks_v1 fuel { s with
      sampletime := s.sampletime + s.samples_step,
      tempo_ticks := wrap16 (wrap16 (s.tempo_ticks - s.song_tempo) + 0x94) }).map
    (fun r => (({ r.1 with channels := clearChannels r.1.channels }, r.2), true)) := by
    simp only [PlayStep_v1, if_neg hnot]
    rw [if_neg hnpos]
  refine ⟨?_, ?_, fun t => by simp⟩
  · intro hsome k hk
    rw [psState_v1, hv1] at hk ⊢
    cases hdt : doTracks_v1 fuel { s with
        sampletime := s.sampletime + s.samples_step,
        tempo_ticks := wrap16 (wrap16 (s.tempo_ticks - s.song_tempo) + 0x94) } with
    | none =>
      rw [hv1] at hsome
      rw [hdt] at hsome
      exact absurd hsome (by simp)
    | some r =>
      rw [hdt] at hk
      simp only [Option.map_some', Option.getD_some] at hk ⊢
      rw [length_clearChannels] at hk
      rw [getD_clearChannels _ _ hk]
      exact ⟨rfl, rfl⟩
  · intro s3 w3 hdt
    simp only [PlayStep_v2, if_neg hnot]
    rw [if_neg hnpos, hdt]
    simp

/-- Witness for C10: on a concrete expiring state with channel 0 occupied,
the first revision's step leaves all channels cleared
(`cur_note = 0`, `cur_program = 0xFF`), while the second revision's step
keeps channel 0 occupied with its note 5. -/
theorem C10_channel_clear_witness :
    ((psState_v1 4 c5estate).channels.getD 0 default).cur_note = 0 ∧
    ((psState_v1 4 c5estate).channels.getD 0 default).cur_program = 0xFF ∧
    (PlayStep_v2 4 c5estate).map
      (fun r => (r.1.1.channels.getD 0 default).cur_note) = some 5 := by
  have h := (C10_channel_clear c5estate 4 rfl (by decide)).1 (by decide) 0 (by decide)
  exact ⟨h.1, h.2, by decide⟩

/-- Both cores only modify the channel list. -/
theorem core_frame_v2 (s : AdlibState) (tracknum velocity note' : Nat)
    (instrument : InstrumentDef) (progkey : Nat) :
    (DoPlayNoteCore_v2 s tracknum velocity note' instrument progkey).1 =
      { s with channels :=
          (DoPlayNoteCore_v2 s tracknum velocity note' instrument progkey).1.channels } := by
  by_cases hv : velocity = 0 <;> simp [DoPlayNoteCore_v2, hv, DoNoteOn]

/-- Channel facts of the second revision's note-on core for an arbitrary
channel pool: the selected channel carries the translated note, the owning
track and a zero contest counter, every other channel is exactly its
contest-bumped pre-state, and lengths and the selected index stay in
range. -/
theorem core_facts_v2 (s : AdlibState) (tracknum velocity note' : Nat)
    (instrument : InstrumentDef) (progkey : Nat)
    (h9 : s.channels.length = 9) (hv : velocity ≠ 0) :
    (SelectChannel_v2 s.channels progkey).1 < 9 ∧
    (DoPlayNoteCore_v2 s tracknum velocity note' instrument
        progkey).1.channels.length = 9 ∧
    (((DoPlayNoteCore_v2 s tracknum velocity note' instrument progkey).1.channels.getD
        (SelectChannel_v2 s.channels progkey).1 default).cur_note = note' ∧
     ((DoPlayNoteCore_v2 s tracknum velocity note' instrument progkey).1.channels.getD
        (SelectChannel_v2 s.channels progkey).1 default).owning_track = tracknum ∧
     ((DoPlayNoteCore_v2 s tracknum velocity note' instrument progkey).1.channels.getD
        (SelectChannel_v2 s.channels progkey).1 default).contest = 0) ∧
    (∀ k, k ≠ (SelectChannel_v2 s.channels progkey).1 →
       (DoPlayNoteCore_v2 s tracknum velocity note' instrument
           progkey).1.channels.getD k default =
         (bumpContest s.channels).getD k default) := by
  obtain ⟨hproj1, hproj2⟩ := SelectChannel_v2_proj s.channels progkey h9
  obtain ⟨hlt, -, -⟩ := scan_top_char s.channels h9
  have hsel9 : (SelectChannel_v2 s.channels progkey).1 < 9 := by
    rw [hproj1]
    omega
  have hcore : (DoPlayNoteCore_v2 s tracknum velocity note' instrument
      progkey).1.channels =
      updateAt (updateAt (updateAt ((SelectChannel_v2 s.channels progkey).2.2)
          ((SelectChannel_v2 s.channels progkey).1)
          (fun c => { c with velocity := velocity, cur_note := note',
                             owning_track := tracknum }))
        ((SelectChannel_v2 s.channels progkey).1)
        (fun c => { c with cur_freqnum := CalcFrequency s tracknum note' }))
      ((SelectChannel_v2 s.channels progkey).1)
      (fun c => { c with cur_bn_fh :=
        (note_blocknum.getD note' 0 <<< 2) |||
          (CalcFrequency s tracknum note' >>> 8) }) := by
    simp only [DoPlayNoteCore_v2, if_neg hv, DoNoteOn]
  have hlen2 : ((SelectChannel_v2 s.channels progkey).2.2).length = 9 := by
    rw [hproj2, length_updateAt, length_bumpContest, h9]
  refine ⟨hsel9, ?_, ?_, ?_⟩
  · rw [hcore, length_updateAt, length_updateAt, length_updateAt, hlen2]
  · rw [hcore]
    rw [getD_updateAt_self _ _ _ _
      (by rw [length_updateAt, length_updateAt, hlen2]; omega)]
    rw [getD_updateAt_self _ _ _ _ (by rw [length_updateAt, hlen2]; omega)]
    rw [getD_updateAt_self _ _ _ _ (by rw [hlen2]; omega)]
    refine ⟨rfl, rfl, ?_⟩
    rw [hproj2, hproj1]
    rw [getD_updateAt_self _ _ _ _ (by rw [length_bumpContest, h9]; omega)]
  · intro k hk
    rw [hcore]
    rw [getD_updateAt_ne _ _ _ _ _ hk, getD_updateAt_ne _ _ _ _ _ hk,
      getD_updateAt_ne _ _ _ _ _ hk, hproj2]
    rw [hproj1] at hk
    rw [getD_updateAt_ne _ _ _ _ _ hk]

/-- C3 counterexample: the first revision's note-on doubling condition is
`dualtrack != 0 || !IsAnyChannelFree()`, so with the dual track set and no
free channel the dual note is still triggered: channel 0 (previously owned
by track 1) ends up owned by dual track 3 with the event's note 0x40 —
while the claim says the doubling must be skipped when no channel is
free. -/
theorem C3_counterexample :
    IsAnyChannelFree c3state.channels = false ∧
    (c3state.tracks.getD 7 default).dualtrack = 3 ∧
    (c3state.channels.getD 0 default).owning_track = 1 ∧
    (trackBody_v1 c3state 7).map
      (fun r => ((r.1.channels.getD 0 default).owning_track,
                 (r.1.channels.getD 0 default).cur_note)) = some (3, 0x40) := by
  decide

/-- Unfolding of one `trackBody_v2` iteration on a note-on event with an
explicit status byte and nonzero second data byte. -/
theorem trackBody_v2_noteon (s : AdlibState) (tracknum c note b2v : Nat)
    (hc : c < 16)
    (hp0 : s.songdata.getD (s.tracks.getD tracknum default).playpos 0 = 144 + c)
    (hp1 : s.songdata.getD ((s.tracks.getD tracknum default).playpos + 1) 0 = note)
    (hp2 : s.songdata.getD ((s.tracks.getD tracknum default).playpos + 1 + 1) 0 = b2v)
    (hb2 : b2v ≠ 0) :
    trackBody_v2 s tracknum =
      ((if (s.tracks.getD tracknum default).dualtrack ≠ 0 ∧
            IsAnyChannelFree s.channels = true then
          DoPlayNote_v2
            { s with
              tracks :=
                updateAt
                  (updateAt s.tracks tracknum fun t =>
                    { t with
                      running_status := 144 + c,
                      playpos := (s.tracks.getD tracknum default).playpos + 1 + 1 })
                  (s.tracks.getD tracknum default).dualtrack fun t =>
                  { t with
                    program := (s.tracks.getD tracknum default).program,
                    pitchbend := (s.tracks.getD tracknum default).pitchbend } }
            (s.tracks.getD tracknum default).dualtrack
            (b2v * (s.tracks.getD tracknum default).volume / 128 % 256) note
        else some
          ({ s with
             tracks :=
               updateAt s.tracks tracknum fun t =>
                 { t with
                   running_status := 144 + c,
                   playpos := (s.tracks.getD tracknum default).playpos + 1 + 1 } },
           [])).bind
        fun r1 =>
          (DoPlayNote_v2 r1.1 tracknum
              (b2v * (s.tracks.getD tracknum default).volume / 128 % 256) note).map
            fun r2 =>
              (({ r2.1 with active_notes := u16 (r2.1.active_notes + 1) } : AdlibState),
               r1.2 ++ r2.2,
               (s.tracks.getD tracknum default).playpos + 1 + 1 + 1, false)).map
        fun r =>
          if r.2.2.2 then (r.1, r.2.1, true)
          else
            (({ r.1 with
                tracks := updateAt r.1.tracks tracknum fun t =>
                  { t with
                    delay := (readVL s.songdata r.2.2.1).1,
                    playpos := (readVL s.songdata r.2.2.1).2 } } : AdlibState),
             r.2.1, false) := by
  have hmaskall : ∀ x, x < 16 → (144 + x) &&& 240 = 144 := by decide
  have hmask : (144 + c) &&& 240 = 144 := hmaskall c hc
  have h80 : 128 ≤ 144 + c := by omega
  have hne1 : ¬(144 + c = 254) := by omega
  have hne2 : ¬(144 + c = 253) := by omega
  have hne3 : ¬(144 + c = 255) := by omega
  simp only [List.getD_eq_getElem?_getD] at hp0 hp1 hp2
  simp [trackBody_v2, hp0, hp1, hp2, hmask, h80, hne1, hne2, hne3, hb2]

/-- C3 (amended): in the second revision, a 0x90 note-on event with nonzero
data byte, nonzero computed velocity and a dual track configured (distinct
from the event track, both melodic with loadable programs) triggers the dual
note if and only if a synthesizer channel is free: with a free channel the
first free channel ends up owned by the dual track holding the translated
note, and the primary note is triggered on another channel; with no free
channel the doubling is skipped — every channel keeps its previous owner or
is claimed by the primary track — while the primary note is still triggered.
(In the first revision the doubling condition is
`byte1547 != 0 || !IsAnyChannelFree()`, so the dual note is triggered even
with no free channel; see the counterexample.) -/
theorem C3_dual (s : AdlibState) (tracknum c note b2v : Nat)
    (h16 : s.tracks.length = 16) (h9ch : s.channels.length = 9)
    (ht16 : tracknum < 16) (hc : c < 16)
    (hp0 : s.songdata.getD (s.tracks.getD tracknum default).playpos 0 = 144 + c)
    (hp1 : s.songdata.getD ((s.tracks.getD tracknum default).playpos + 1) 0 = note)
    (hp2 : s.songdata.getD ((s.tracks.getD tracknum default).playpos + 1 + 1) 0 = b2v)
    (hb2 : b2v ≠ 0)
    (hn0 : bsub note 1 ≠ 0)
    (hvel : b2v * (s.tracks.getD tracknum default).volume / 128 % 256 ≠ 0)
    (hdual : (s.tracks.getD tracknum default).dualtrack ≠ 0)
    (hdtrk : (s.tracks.getD tracknum default).dualtrack ≠ tracknum)
    (hd9 : (s.tracks.getD tracknum default).dualtrack ≠ 9)
    (hd16 : (s.tracks.getD tracknum default).dualtrack < 16)
    (ht9 : tracknum ≠ 9)
    (hprogFF : (s.tracks.getD tracknum default).program ≠ 0xFF)
    (hproglen : (s.tracks.getD tracknum default).program < s.melpatches.length)
    (hcontest : ∀ k, k < 9 → (s.channels.getD k default).contest ≤ 60000) :
    (IsAnyChannelFree s.channels = true →
       (trackBody_v2 s tracknum).isSome = true ∧
       ((tbState_v2 s tracknum).channels.getD (firstFreeIdx s.channels)
           default).owning_track = (s.tracks.getD tracknum default).dualtrack ∧
       ((tbState_v2 s tracknum).channels.getD (firstFreeIdx s.channels)
           default).cur_note = bsub note 1 ∧
       ∃ k, k < 9 ∧ k ≠ firstFreeIdx s.channels ∧
         ((tbState_v2 s tracknum).channels.getD k default).owning_track = tracknum ∧
         ((tbState_v2 s tracknum).channels.getD k default).cur_note = bsub note 1) ∧
    (IsAnyChannelFree s.channels = false →
       (trackBody_v2 s tracknum).isSome = true ∧
       (∃ k, k < 9 ∧
         ((tbState_v2 s tracknum).channels.getD k default).owning_track = tracknum ∧
         ((tbState_v2 s tracknum).channels.getD k default).cur_note = bsub note 1) ∧
       ∀ k, k < 9 →
         ((tbState_v2 s tracknum).channels.getD k default).owning_track =
             (s.channels.getD k default).owning_track ∨
           ((tbState_v2 s tracknum).channels.getD k default).owning_track = tracknum) := by
  have htb := trackBody_v2_noteon s tracknum c note b2v hc hp0 hp1 hp2 hb2
  have hbindsome : ∀ {α β : Type} (a : α) (f : α → Option β), (some a).bind f = f a :=
    fun a f => rfl
  set trk := s.tracks.getD tracknum default with htrkdef
  set fAup : List TrackStatus := updateAt s.tracks tracknum (fun t =>
    ({ t with running_status := 144 + c, playpos := trk.playpos + 1 + 1 } : TrackStatus))
    with hfAdef
  set dt := trk.dualtrack with hdtdef
  set velv := b2v * trk.volume / 128 % 256 with hveldef
  set ntv := bsub note 1 with hntdef
  constructor
  · intro hAny
    rw [if_pos (And.intro hdual hAny)] at htb
    set sB : AdlibState := { s with tracks := updateAt fAup dt (fun t =>
      ({ t with program := trk.program, pitchbend := trk.pitchbend } : TrackStatus)) }
      with hsBdef
    have hlenfA : fAup.length = 16 := by rw [hfAdef, length_updateAt, h16]
    have hsBtracks : sB.tracks = updateAt fAup dt (fun t =>
        ({ t with program := trk.program, pitchbend := trk.pitchbend } : TrackStatus)) := rfl
    have hgdB : sB.tracks.getD dt default =
        { fAup.getD dt default with program := trk.program, pitchbend := trk.pitchbend } := by
      rw [hsBtracks]
      exact getD_updateAt_self _ _ _ _ (by rw [hlenfA]; exact hd16)
    have hguardB : (sB.tracks.getD dt default).program ≠ 0xFF := by
      rw [hgdB]; exact hprogFF
    have hlenB : (sB.tracks.getD dt default).program < sB.melpatches.length := by
      rw [hgdB]; exact hproglen
    have hmelB := DoPlayNote_v2_melodic sB dt velv note hd9 hguardB hlenB
    rw [← hntdef] at hmelB
    rw [hmelB] at htb
    simp only [hbindsome] at htb
    have hframe := core_frame_v2 sB dt velv ntv (sB.melpatches.get ⟨(sB.tracks.getD dt default).program, hlenB⟩) (sB.tracks.getD dt default).program
    have hXtracks : (DoPlayNoteCore_v2 sB dt velv ntv (sB.melpatches.get ⟨(sB.tracks.getD dt default).program, hlenB⟩) (sB.tracks.getD dt default).program).1.tracks = sB.tracks := by rw [hframe]
    have hXmel : (DoPlayNoteCore_v2 sB dt velv ntv (sB.melpatches.get ⟨(sB.tracks.getD dt default).program, hlenB⟩) (sB.tracks.getD dt default).program).1.melpatches = s.melpatches := by rw [hframe]
    have hguardX : ((DoPlayNoteCore_v2 sB dt velv ntv (sB.melpatches.get ⟨(sB.tracks.getD dt default).program, hlenB⟩) (sB.tracks.getD dt default).program).1.tracks.getD tracknum default).program ≠ 0xFF := by
      rw [hXtracks, hsBtracks, getD_updateAt_ne _ _ _ _ _ hdtrk.symm, hfAdef,
        getD_updateAt_self _ _ _ _ (by rw [h16]; exact ht16)]
      exact hprogFF
    have hlenX : ((DoPlayNoteCore_v2 sB dt velv ntv (sB.melpatches.get ⟨(sB.tracks.getD dt default).program, hlenB⟩) (sB.tracks.getD dt default).program).1.tracks.getD tracknum default).program < (DoPlayNoteCore_v2 sB dt velv ntv (sB.melpatches.get ⟨(sB.tracks.getD dt default).program, hlenB⟩) (sB.tracks.getD dt default).program).1.melpatches.length := by
      rw [hXmel, hXtracks, hsBtracks, getD_updateAt_ne _ _ _ _ _ hdtrk.symm, hfAdef,
        getD_updateAt_self _ _ _ _ (by rw [h16]; exact ht16)]
      exact hproglen
    have hmelX := DoPlayNote_v2_melodic (DoPlayNoteCore_v2 sB dt velv ntv (sB.melpatches.get ⟨(sB.tracks.getD dt default).program, hlenB⟩) (sB.tracks.getD dt default).program).1 tracknum velv note ht9 hguardX hlenX
    rw [← hntdef] at hmelX
    rw [hmelX] at htb
    have hsomeA : (trackBody_v2 s tracknum).isSome = true := by
      rw [htb]
      rfl
    have hchA : (tbState_v2 s tracknum).channels = (DoPlayNoteCore_v2 (DoPlayNoteCore_v2 sB dt velv ntv (sB.melpatches.get ⟨(sB.tracks.getD dt default).program, hlenB⟩) (sB.tracks.getD dt default).program).1 tracknum velv ntv ((DoPlayNoteCore_v2 sB dt velv ntv (sB.melpatches.get ⟨(sB.tracks.getD dt default).program, hlenB⟩) (sB.tracks.getD dt default).program).1.melpatches.get ⟨((DoPlayNoteCore_v2 sB dt velv ntv (sB.melpatches.get ⟨(sB.tracks.getD dt default).program, hlenB⟩) (sB.tracks.getD dt default).program).1.tracks.getD tracknum default).program, hlenX⟩) ((DoPlayNoteCore_v2 sB dt velv ntv (sB.melpatches.get ⟨(sB.tracks.getD dt default).program, hlenB⟩) (sB.tracks.getD dt default).program).1.tracks.getD tracknum default).program).1.channels := by
      unfold tbState_v2
      rw [htb]
      rfl
    have hsBch : sB.channels = s.channels := rfl
    obtain ⟨hsel1lt, hXlen, hXsel, hXother⟩ :=
      core_facts_v2 sB dt velv ntv (sB.melpatches.get ⟨(sB.tracks.getD dt default).program, hlenB⟩) (sB.tracks.getD dt default).program (by rw [hsBch]; exact h9ch) hvel
    rw [hsBch] at hsel1lt hXsel hXother
    have hjlt9 : firstFreeIdx s.channels < 9 := by
      have hh := firstFreeIdx_lt s.channels hAny
      rw [h9ch] at hh
      exact hh
    have hsel1j : (SelectChannel_v2 s.channels (sB.tracks.getD dt default).program).1 = firstFreeIdx s.channels := by
      obtain ⟨hq1, -⟩ := SelectChannel_v2_proj s.channels (sB.tracks.getD dt default).program h9ch
      rw [hq1]
      obtain ⟨-, hfr, -⟩ := scan_top_char s.channels h9ch
      exact hfr hAny
    rw [hsel1j] at hXsel hXother
    obtain ⟨hXjn, hXjo, hXjc⟩ := hXsel
    obtain ⟨hsel2lt, hYlen, hYsel, hYother⟩ :=
      core_facts_v2 (DoPlayNoteCore_v2 sB dt velv ntv (sB.melpatches.get ⟨(sB.tracks.getD dt default).program, hlenB⟩) (sB.tracks.getD dt default).program).1 tracknum velv ntv ((DoPlayNoteCore_v2 sB dt velv ntv (sB.melpatches.get ⟨(sB.tracks.getD dt default).program, hlenB⟩) (sB.tracks.getD dt default).program).1.melpatches.get ⟨((DoPlayNoteCore_v2 sB dt velv ntv (sB.melpatches.get ⟨(sB.tracks.getD dt default).program, hlenB⟩) (sB.tracks.getD dt default).program).1.tracks.getD tracknum default).program, hlenX⟩) ((DoPlayNoteCore_v2 sB dt velv ntv (sB.melpatches.get ⟨(sB.tracks.getD dt default).program, hlenB⟩) (sB.tracks.getD dt default).program).1.tracks.getD tracknum default).program hXlen hvel
    obtain ⟨hYn, hYo, -⟩ := hYsel
    have hsel2ne : (SelectChannel_v2 (DoPlayNoteCore_v2 sB dt velv ntv (sB.melpatches.get ⟨(sB.tracks.getD dt default).program, hlenB⟩) (sB.tracks.getD dt default).program).1.channels ((DoPlayNoteCore_v2 sB dt velv ntv (sB.melpatches.get ⟨(sB.tracks.getD dt default).program, hlenB⟩) (sB.tracks.getD dt default).program).1.tracks.getD tracknum default).program).1 ≠ firstFreeIdx s.channels := by
      intro hEq
      cases hfree2 : IsAnyChannelFree (DoPlayNoteCore_v2 sB dt velv ntv (sB.melpatches.get ⟨(sB.tracks.getD dt default).program, hlenB⟩) (sB.tracks.getD dt default).program).1.channels with
      | true =>
        obtain ⟨hq1, -⟩ := SelectChannel_v2_proj (DoPlayNoteCore_v2 sB dt velv ntv (sB.melpatches.get ⟨(sB.tracks.getD dt default).program, hlenB⟩) (sB.tracks.getD dt default).program).1.channels ((DoPlayNoteCore_v2 sB dt velv ntv (sB.melpatches.get ⟨(sB.tracks.getD dt default).program, hlenB⟩) (sB.tracks.getD dt default).program).1.tracks.getD tracknum default).program hXlen
        obtain ⟨-, hfr2, -⟩ := scan_top_char (DoPlayNoteCore_v2 sB dt velv ntv (sB.melpatches.get ⟨(sB.tracks.getD dt default).program, hlenB⟩) (sB.tracks.getD dt default).program).1.channels hXlen
        have h0 : ((DoPlayNoteCore_v2 sB dt velv ntv (sB.melpatches.get ⟨(sB.tracks.getD dt default).program, hlenB⟩) (sB.tracks.getD dt default).program).1.channels.getD (firstFreeIdx (DoPlayNoteCore_v2 sB dt velv ntv (sB.melpatches.get ⟨(sB.tracks.getD dt default).program, hlenB⟩) (sB.tracks.getD dt default).program).1.channels)
            default).cur_note = 0 := getD_firstFreeIdx _ hfree2
        have hEq2 : firstFreeIdx (DoPlayNoteCore_v2 sB dt velv ntv (sB.melpatches.get ⟨(sB.tracks.getD dt default).program, hlenB⟩) (sB.tracks.getD dt default).program).1.channels = firstFreeIdx s.channels := by
          rw [← hfr2 hfree2, ← hq1]
          exact hEq
        rw [hEq2] at h0
        rw [hXjn] at h0
        exact hn0 h0
      | false =>
        obtain ⟨hq1, -⟩ := SelectChannel_v2_proj (DoPlayNoteCore_v2 sB dt velv ntv (sB.melpatches.get ⟨(sB.tracks.getD dt default).program, hlenB⟩) (sB.tracks.getD dt default).program).1.channels ((DoPlayNoteCore_v2 sB dt velv ntv (sB.melpatches.get ⟨(sB.tracks.getD dt default).program, hlenB⟩) (sB.tracks.getD dt default).program).1.tracks.getD tracknum default).program hXlen
        obtain ⟨-, -, hmax⟩ := scan_top_char (DoPlayNoteCore_v2 sB dt velv ntv (sB.melpatches.get ⟨(sB.tracks.getD dt default).program, hlenB⟩) (sB.tracks.getD dt default).program).1.channels hXlen
        obtain ⟨hle, -⟩ := hmax hfree2
        have hk0ex : ∃ k0, k0 < 9 ∧ k0 ≠ firstFreeIdx s.channels := by
          by_cases hj0 : firstFreeIdx s.channels = 0
          · exact ⟨1, by omega, by omega⟩
          · exact ⟨0, by omega, fun hh => hj0 hh.symm⟩
        obtain ⟨k0, hk0lt, hk0ne⟩ := hk0ex
        have hXk0 : (DoPlayNoteCore_v2 sB dt velv ntv (sB.melpatches.get ⟨(sB.tracks.getD dt default).program, hlenB⟩) (sB.tracks.getD dt default).program).1.channels.getD k0 default =
            (bumpContest s.channels).getD k0 default := hXother k0 hk0ne
        have hck0 := hcontest k0 hk0lt
        have hbk0 : ((bumpContest (DoPlayNoteCore_v2 sB dt velv ntv (sB.melpatches.get ⟨(sB.tracks.getD dt default).program, hlenB⟩) (sB.tracks.getD dt default).program).1.channels).getD k0 default).contest =
            (s.channels.getD k0 default).contest + 2 := by
          rw [getD_bumpContest _ _ (by rw [hXlen]; exact hk0lt), hXk0,
            getD_bumpContest _ _ (by rw [h9ch]; exact hk0lt)]
          simp only [u16]
          omega
        have hbj : ((bumpContest (DoPlayNoteCore_v2 sB dt velv ntv (sB.melpatches.get ⟨(sB.tracks.getD dt default).program, hlenB⟩) (sB.tracks.getD dt default).program).1.channels).getD (firstFreeIdx s.channels)
            default).contest = 1 := by
          rw [getD_bumpContest _ _ (by rw [hXlen]; exact hjlt9)]
          simp only [u16]
          rw [hXjc]
        have hle0 := hle k0 hk0lt
        have hscan : scanChannels (bumpContest (DoPlayNoteCore_v2 sB dt velv ntv (sB.melpatches.get ⟨(sB.tracks.getD dt default).program, hlenB⟩) (sB.tracks.getD dt default).program).1.channels) 0 0 0 =
            firstFreeIdx s.channels := by
          rw [← hq1]
          exact hEq
        rw [hscan, hbk0, hbj] at hle0
        omega
    refine ⟨hsomeA, ?_, ?_, ?_⟩
    · rw [hchA, hYother (firstFreeIdx s.channels) (fun hh => hsel2ne hh.symm),
        getD_bumpContest _ _ (by rw [hXlen]; exact hjlt9)]
      exact hXjo
    · rw [hchA, hYother (firstFreeIdx s.channels) (fun hh => hsel2ne hh.symm),
        getD_bumpContest _ _ (by rw [hXlen]; exact hjlt9)]
      exact hXjn
    · exact ⟨_, hsel2lt, hsel2ne, by rw [hchA]; exact hYo, by rw [hchA]; exact hYn⟩
  · intro hAny
    have hnC : ¬(dt ≠ 0 ∧ IsAnyChannelFree s.channels = true) := by
      intro hC
      rw [hAny] at hC
      exact absurd hC.2 (by decide)
    rw [if_neg hnC] at htb
    simp only [hbindsome] at htb
    have hlenfA : fAup.length = 16 := by rw [hfAdef, length_updateAt, h16]
    have hs0tracks : ({ s with tracks := fAup } : AdlibState).tracks = fAup := rfl
    have hguardP : (({ s with tracks := fAup } : AdlibState).tracks.getD tracknum default).program ≠ 0xFF := by
      rw [hs0tracks, hfAdef, getD_updateAt_self _ _ _ _ (by rw [h16]; exact ht16)]
      exact hprogFF
    have hlenP : (({ s with tracks := fAup } : AdlibState).tracks.getD tracknum default).program <
        ({ s with tracks := fAup } : AdlibState).melpatches.length := by
      rw [hs0tracks, hfAdef, getD_updateAt_self _ _ _ _ (by rw [h16]; exact ht16)]
      exact hproglen
    have hmelP := DoPlayNote_v2_melodic ({ s with tracks := fAup } : AdlibState) tracknum velv note ht9 hguardP hlenP
    rw [← hntdef] at hmelP
    rw [hmelP] at htb
    have hsomeB : (trackBody_v2 s tracknum).isSome = true := by
      rw [htb]
      rfl
    have hchB : (tbState_v2 s tracknum).channels = (DoPlayNoteCore_v2 ({ s with tracks := fAup } : AdlibState) tracknum velv ntv (({ s with tracks := fAup } : AdlibState).melpatches.get ⟨(({ s with tracks := fAup } : AdlibState).tracks.getD tracknum default).program, hlenP⟩) (({ s with tracks := fAup } : AdlibState).tracks.getD tracknum default).program).1.channels := by
      unfold tbState_v2
      rw [htb]
      rfl
    have hs0ch : ({ s with tracks := fAup } : AdlibState).channels = s.channels := rfl
    obtain ⟨hsellt, hZlen, hZsel, hZother⟩ :=
      core_facts_v2 ({ s with tracks := fAup } : AdlibState) tracknum velv ntv (({ s with tracks := fAup } : AdlibState).melpatches.get ⟨(({ s with tracks := fAup } : AdlibState).tracks.getD tracknum default).program, hlenP⟩) (({ s with tracks := fAup } : AdlibState).tracks.getD tracknum default).program (by rw [hs0ch]; exact h9ch) hvel
    rw [hs0ch] at hsellt hZsel hZother
    obtain ⟨hZn, hZo, -⟩ := hZsel
    refine ⟨hsomeB, ⟨_, hsellt, by rw [hchB]; exact hZo, by rw [hchB]; exact hZn⟩, ?_⟩
    intro k hk
    by_cases hks : k = (SelectChannel_v2 s.channels (({ s with tracks := fAup } : AdlibState).tracks.getD tracknum default).program).1
    · right
      rw [hchB, hks]
      exact hZo
    · left
      rw [hchB, hZother k hks, getD_bumpContest _ _ (by rw [h9ch]; exact hk)]

/-- Witness for the amended C3: in the witness state channel 0 is free,
track 7 (program 0, volume 127) has dual track 3, and the event is
(0x97, 0x40, 0x50); after the iteration channel 0 is owned by the dual
track 3 and holds the translated note 63. -/
theorem C3_dual_witness :
    IsAnyChannelFree c3wstate.channels = true ∧
    ((tbState_v2 c3wstate 7).channels.getD 0 default).owning_track = 3 ∧
    ((tbState_v2 c3wstate 7).channels.getD 0 default).cur_note = 63 := by
  have h := (C3_dual c3wstate 7 7 64 80 (by decide) (by decide) (by decide) (by decide)
    (by decide) (by decide) (by decide) (by decide) (by decide) (by decide) (by decide)
    (by decide) (by decide) (by decide) (by decide) (by decide) (by decide)
    (by decide)).1 (by decide)
  have hffi : firstFreeIdx c3wstate.channels = 0 := by decide
  have hdt3 : (c3wstate.tracks.getD 7 default).dualtrack = 3 := by decide
  have hbs : bsub 64 1 = 63 := by decide
  obtain ⟨-, ho, hn, -⟩ := h
  rw [hffi, hdt3] at ho
  rw [hffi, hbs] at hn
  exact ⟨by decide, ho, hn⟩

end Adlib

